import Mathlib

/-!
# Traffic analytics pipeline: ingestion and consumption

A shallow embedding of the ingestion-to-analytics pipeline of the repository
(`cmd/traffic-ingestor`, `cmd/analytics-processor`, `internal/shared/models`).

Conventions of the embedding.
* `float64` values are exact rationals (`ℚ`); every formula is read in exact arithmetic.
* Go `int` is `Int`.
* `time.Time` is a number of nanoseconds counted from the zero instant, so that
  `IsZero` is "equal to 0"; `time.Duration` is a number of nanoseconds.
* A Go `error` return is `Option Err` (`none` is `nil`); a `(T, error)` return is `Except Err T`.
* External collaborators (JSON codec, relational store, cache, log, wall clock) are oracles
  collected in an environment record; the state they own is an explicit world value that
  is threaded through every call.
* Calls to the process logger (`log.Printf`) do not touch any modelled state and are left out.
-/

namespace TrafficAnalytics

/-! ## Time -/

/-- Instants of `time.Time`, in nanoseconds since the zero instant. -/
structure Time where
  ns : Int
  deriving DecidableEq, Repr

/-- Durations of `time.Duration`, in nanoseconds. -/
abbrev Duration := Int

/-- One second, `time.Second`. -/
def Second : Duration := 1000000000

/-- One minute, `time.Minute`. -/
def Minute : Duration := 60 * Second

/-- Go `Time.IsZero`: the instant is the zero instant. -/
def Time.IsZero (t : Time) : Bool := t.ns == 0

/-- Go `Time.Add`. -/
def Time.Add (t : Time) (d : Duration) : Time := ⟨t.ns + d⟩

/-- Go `Time.Sub`. -/
def Time.Sub (t u : Time) : Duration := t.ns - u.ns

/-! ## Errors -/

/-- Error values. Each `fmt.Errorf` call site of the sources is one constructor applied to
the arguments of its format string; `wrap p e` is `fmt.Errorf(p + ": %w", e)`. -/
inductive Err where
  /-- An `fmt.Errorf` with a constant message. -/
  | errorf (text : String)
  /-- The message "vehicle_count must be non-negative, got %d". -/
  | vehicleCount (got : Int)
  /-- The message "average_speed must be non-negative, got %.2f". -/
  | averageSpeed (got : ℚ)
  /-- The message "invalid congestion_level: %s". -/
  | congestionLevel (got : String)
  /-- An error handed back by a collaborator outside the sources (codec, store, cache, log). -/
  | backend (text : String)
  /-- An error wrapped with `%w` under a constant message. -/
  | wrap (pfx : String) (cause : Err)
  deriving DecidableEq, Repr

/-! ## Models (`internal/shared/models/models.go`) -/

/-- The fields of `models.TrafficData` that the pipeline reads. The bookkeeping columns
(`UUID`, `IsValidated`, `CreatedAt`, `UpdatedAt`, `Location`) are carried by the store only. -/
structure TrafficData where
  ID : Int := 0
  Timestamp : Time
  LocationID : String
  VehicleCount : Int
  AverageSpeed : ℚ
  CongestionLevel : String
  MaxSpeed : Option ℚ := none
  MinSpeed : Option ℚ := none
  Occupancy : Option ℚ := none
  QueueLength : ℚ := 0
  TravelTime : ℚ := 0
  DataSource : String := ""
  deriving DecidableEq, Repr

/-- The fields of `models.AnalyticsResult` that the pipeline writes; the remaining
columns keep their zero value in every record built by the processor. -/
structure AnalyticsResult where
  AnalysisTimestamp : Time
  PeriodStart : Time
  PeriodEnd : Time
  LocationID : Option String
  MetricType : String
  Value : ℚ
  Unit : String
  ConfidenceLevel : Option ℚ
  Trend : String := ""
  SampleSize : Option Int := none
  AggregationMethod : String := ""
  IsAnomaly : Bool := false
  deriving DecidableEq, Repr

def CongestionLow : String := "low"
def CongestionMedium : String := "medium"
def CongestionHigh : String := "high"
def CongestionSevere : String := "severe"

def MetricCongestionIndex : String := "congestion_index"
def MetricTrafficDensity : String := "traffic_density"
def MetricFlowRate : String := "flow_rate"
def MetricTravelTime : String := "travel_time"
def MetricDelayIndex : String := "delay_index"

def UnitVehiclesPerHour : String := "vehicles/hour"
def UnitIndex : String := "index"
def UnitVehiclesPerKm : String := "vehicles/km"
def UnitMinutes : String := "minutes"

/-- Modelled from the spec: `shared.Float64Ptr` is not among the sources; the confidence
level of a record is present and holds the given constant, so the helper returns a
pointer to its argument. -/
def Float64Ptr (v : ℚ) : Option ℚ := some v

/-! ## Validators -/

/-- The `validLevels` map literal of both validators; a key that is absent reads `false`. -/
def validLevels (level : String) : Bool :=
  level == CongestionLow || level == CongestionMedium ||
    level == CongestionHigh || level == CongestionSevere

/-- Go `MessageHandler.validateTrafficData` (analytics-processor `handler/handler.go`). -/
def MessageHandler.validateTrafficData (data : TrafficData) : Option Err :=
  if data.LocationID = "" then
    some (.errorf "location_id is required")
  else if data.VehicleCount < 0 then
    some (.vehicleCount data.VehicleCount)
  else if data.AverageSpeed < 0 then
    some (.averageSpeed data.AverageSpeed)
  else if data.CongestionLevel ≠ "" then
    if !validLevels data.CongestionLevel then
      some (.congestionLevel data.CongestionLevel)
    else none
  else none

/-- Go `analyticsProcessor.validateTrafficData` (analytics-processor
`service/analytics-processor.go`); the argument is a pointer, `none` is `nil`. -/
def analyticsProcessor.validateTrafficData (data : Option TrafficData) : Option Err :=
  match data with
  | none => some (.errorf "traffic data is nil")
  | some data =>
    if data.LocationID = "" then
      some (.errorf "location_id is required")
    else if data.VehicleCount < 0 then
      some (.vehicleCount data.VehicleCount)
    else if data.AverageSpeed < 0 then
      some (.averageSpeed data.AverageSpeed)
    else if data.Timestamp.IsZero then
      some (.errorf "timestamp is required")
    else if data.CongestionLevel ≠ "" then
      if !validLevels data.CongestionLevel then
        some (.congestionLevel data.CongestionLevel)
      else none
    else none

/-! ## Metric derivation (`service/analytics-processor.go`)

Every constructor reads the wall clock once (`time.Now()`); the reading is the
argument `now`. -/

/-- Go `analyticsProcessor.determineTrend`. -/
def analyticsProcessor.determineTrend (congestionIndex : ℚ) : String :=
  if congestionIndex > 7 / 10 then "increasing"
  else if congestionIndex < 3 / 10 then "decreasing"
  else "stable"

/-- Go `analyticsProcessor.calculateCongestionIndex`. -/
def analyticsProcessor.calculateCongestionIndex (now : Time) (data : TrafficData) :
    AnalyticsResult :=
  if data.VehicleCount = 0 then
    { AnalysisTimestamp := now
      PeriodStart := data.Timestamp
      PeriodEnd := data.Timestamp.Add (5 * Minute)
      LocationID := some data.LocationID
      MetricType := MetricCongestionIndex
      Value := 0
      Unit := UnitIndex
      ConfidenceLevel := Float64Ptr (95 / 100) }
  else
    let normalizedCount : ℚ := (data.VehicleCount : ℚ) / 200
    let normalizedCount : ℚ := if normalizedCount > 1 then 1 else normalizedCount
    let normalizedSpeed : ℚ :=
      if data.AverageSpeed > 0 then
        let s : ℚ := (80 - data.AverageSpeed) / 80
        if s < 0 then 0 else s
      else 0
    let congestionIndex : ℚ := (normalizedCount + normalizedSpeed) / 2
    let congestionIndex : ℚ := if congestionIndex > 1 then 1 else congestionIndex
    { AnalysisTimestamp := now
      PeriodStart := data.Timestamp
      PeriodEnd := data.Timestamp.Add (5 * Minute)
      LocationID := some data.LocationID
      MetricType := MetricCongestionIndex
      Value := congestionIndex
      Unit := UnitIndex
      ConfidenceLevel := Float64Ptr (95 / 100)
      Trend := analyticsProcessor.determineTrend congestionIndex }

/-- Go `analyticsProcessor.calculateTrafficDensity`. -/
def analyticsProcessor.calculateTrafficDensity (now : Time) (data : TrafficData) :
    AnalyticsResult :=
  let density : ℚ := (data.VehicleCount : ℚ) / 1
  { AnalysisTimestamp := now
    PeriodStart := data.Timestamp
    PeriodEnd := data.Timestamp.Add (5 * Minute)
    LocationID := some data.LocationID
    MetricType := MetricTrafficDensity
    Value := density
    Unit := UnitVehiclesPerKm
    ConfidenceLevel := Float64Ptr (90 / 100) }

/-- Go `analyticsProcessor.calculateFlowRate`. -/
def analyticsProcessor.calculateFlowRate (now : Time) (data : TrafficData) :
    AnalyticsResult :=
  let flowRate : ℚ := (data.VehicleCount : ℚ) * (60 / 5)
  { AnalysisTimestamp := now
    PeriodStart := data.Timestamp
    PeriodEnd := data.Timestamp.Add (5 * Minute)
    LocationID := some data.LocationID
    MetricType := MetricFlowRate
    Value := flowRate
    Unit := UnitVehiclesPerHour
    ConfidenceLevel := Float64Ptr (85 / 100) }

/-- Go `analyticsProcessor.calculateTravelTime`. -/
def analyticsProcessor.calculateTravelTime (now : Time) (data : TrafficData) :
    AnalyticsResult :=
  let travelTime : ℚ :=
    if data.AverageSpeed > 0 then (1 / data.AverageSpeed) * 60 else 60
  { AnalysisTimestamp := now
    PeriodStart := data.Timestamp
    PeriodEnd := data.Timestamp.Add (5 * Minute)
    LocationID := some data.LocationID
    MetricType := MetricTravelTime
    Value := travelTime
    Unit := UnitMinutes
    ConfidenceLevel := Float64Ptr (80 / 100) }

/-- Go `analyticsProcessor.calculateDelayIndex`. -/
def analyticsProcessor.calculateDelayIndex (now : Time) (data : TrafficData) :
    AnalyticsResult :=
  let idealSpeed : ℚ := 80
  let currentSpeed : ℚ := data.AverageSpeed
  let delayIndex : ℚ :=
    if idealSpeed > 0 ∧ currentSpeed > 0 then
      let d : ℚ := (idealSpeed - currentSpeed) / idealSpeed
      let d : ℚ := if d < 0 then 0 else d
      if d > 1 then 1 else d
    else 0
  { AnalysisTimestamp := now
    PeriodStart := data.Timestamp
    PeriodEnd := data.Timestamp.Add (5 * Minute)
    LocationID := some data.LocationID
    MetricType := MetricDelayIndex
    Value := delayIndex
    Unit := UnitIndex
    ConfidenceLevel := Float64Ptr (85 / 100) }

/-- Go `analyticsProcessor.performAnalysis`; `now i` is the clock reading taken by the
`i`-th constructor. -/
def analyticsProcessor.performAnalysis (now : Nat → Time) (data : TrafficData) :
    List AnalyticsResult :=
  let results : List AnalyticsResult := []
  let congestionIndex := analyticsProcessor.calculateCongestionIndex (now 0) data
  let results := results ++ [congestionIndex]
  let trafficDensity := analyticsProcessor.calculateTrafficDensity (now 1) data
  let results := results ++ [trafficDensity]
  let flowRate := analyticsProcessor.calculateFlowRate (now 2) data
  let results := results ++ [flowRate]
  let travelTime := analyticsProcessor.calculateTravelTime (now 3) data
  let results := results ++ [travelTime]
  let delayIndex := analyticsProcessor.calculateDelayIndex (now 4) data
  let results := results ++ [delayIndex]
  results

/-! ## Consumption path (`cmd/analytics-processor`) -/

/-- Contents of a byte slice (`[]byte`): a payload on the log, a cache value. -/
abbrev Bytes := String

/-- The fields of `kafka.Message` that the loop reads. -/
structure Message where
  Offset : Int
  Value : Bytes
  deriving DecidableEq, Repr

/-- Behaviour of the collaborators of the consumption path. Every oracle is indexed by
the number of earlier calls of the same kind, so any sequence of outcomes can be described. -/
structure Env where
  /-- The decoder `json.Unmarshal` into a `models.TrafficData`. -/
  unmarshal : Bytes → Except Err TrafficData
  /-- Outcome of the `n`-th `Consumer.FetchMessage`. -/
  fetch : Nat → Except Err Message
  /-- Error of the `n`-th insert into the analytics table, if it fails. -/
  storeErr : Nat → Option Err
  /-- Error of the `n`-th `Consumer.CommitMessages`, if it fails. -/
  commitErr : Nat → Option Err
  /-- Wall-clock time at the `n`-th event of the run. -/
  clock : Nat → Time

/-- State owned by the consumption path and its collaborators. -/
structure World where
  /-- Number of events so far (clock readings and collaborator calls). -/
  ticks : Nat
  /-- Number of `FetchMessage` calls issued. -/
  fetchCalls : Nat
  /-- Rows of the analytics table, oldest first. -/
  rows : List AnalyticsResult
  /-- Number of inserts into the analytics table issued. -/
  storeCalls : Nat
  /-- Messages passed to `CommitMessages`, oldest first, whether or not the call succeeded. -/
  commitCalls : List Message
  /-- Committed position of the consumer group: the offset of the next message to read. -/
  offset : Int
  /-- Counter `analytics_processor_messages_processed_total`. -/
  messagesProcessed : Nat
  /-- Counter `analytics_processor_messages_failed_total`. -/
  messagesFailed : Nat
  /-- Observations of the histogram `analytics_processor_processing_duration_seconds`. -/
  processingTime : List Duration
  deriving DecidableEq, Repr

/-- Go `time.Now()`: the time of the current event. -/
def timeNow (env : Env) (w : World) : Time × World :=
  (env.clock w.ticks, { w with ticks := w.ticks + 1 })

/-- Go `time.Since(start)`, that is `time.Now().Sub(start)`. -/
def timeSince (env : Env) (start : Time) (w : World) : Duration × World :=
  ((env.clock w.ticks).Sub start, { w with ticks := w.ticks + 1 })

/-- Go `postgres.TrafficDataRepository.CreateAnalyticsResult`: one insert; a failed insert
leaves the table as it was. -/
def TrafficDataRepository.CreateAnalyticsResult (env : Env) (result : AnalyticsResult)
    (w : World) : Option Err × World :=
  match env.storeErr w.storeCalls with
  | some e => (some e, { w with storeCalls := w.storeCalls + 1, ticks := w.ticks + 1 })
  | none =>
    (none, { w with rows := w.rows ++ [result], storeCalls := w.storeCalls + 1,
                    ticks := w.ticks + 1 })

/-- Go `Repository.StoreAnalyticsResult` (analytics-processor `repository/repository.go`). -/
def Repository.StoreAnalyticsResult (env : Env) (result : AnalyticsResult) (w : World) :
    Option Err × World :=
  TrafficDataRepository.CreateAnalyticsResult env result w

/-- The `for _, result := range analyticsResults` loop of
`analyticsProcessor.ProcessTrafficData`. -/
def analyticsProcessor.storeResults (env : Env) :
    List AnalyticsResult → World → Option Err × World
  | [], w => (none, w)
  | result :: rest, w =>
    match Repository.StoreAnalyticsResult env result w with
    | (some e, w1) => (some (.wrap "failed to store analytics result" e), w1)
    | (none, w1) => analyticsProcessor.storeResults env rest w1

/-- Go `analyticsProcessor.ProcessTrafficData`; the argument is a pointer, `none` is `nil`. -/
def analyticsProcessor.ProcessTrafficData (env : Env) (data : Option TrafficData)
    (w : World) : Option Err × World :=
  match analyticsProcessor.validateTrafficData data with
  | some e => (some (.wrap "invalid traffic data" e), w)
  | none =>
    match data with
    | none => (none, w) -- not reached: a nil pointer does not pass the validation
    | some d =>
      let analyticsResults :=
        analyticsProcessor.performAnalysis (fun i => env.clock (w.ticks + i)) d
      analyticsProcessor.storeResults env analyticsResults { w with ticks := w.ticks + 5 }

/-- Go `MessageHandler.parseTrafficData`. -/
def MessageHandler.parseTrafficData (env : Env) (data : Bytes) : Except Err TrafficData :=
  match env.unmarshal data with
  | .error e => .error (.wrap "JSON unmarshal failed" e)
  | .ok trafficData =>
    match MessageHandler.validateTrafficData trafficData with
    | some e => .error (.wrap "data validation failed" e)
    | none => .ok trafficData

/-- Go `MessageHandler.HandleMessage`. -/
def MessageHandler.HandleMessage (env : Env) (msgValue : Bytes) (w : World) :
    Option Err × World :=
  let (_startTime, w1) := timeNow env w
  match MessageHandler.parseTrafficData env msgValue with
  | .error e => (some (.wrap "failed to parse traffic data" e), w1)
  | .ok trafficData =>
    match analyticsProcessor.ProcessTrafficData env (some trafficData) w1 with
    | (some e, w2) => (some (.wrap "analytics processing failed" e), w2)
    | (none, w2) =>
      let (_duration, w3) := timeSince env _startTime w2
      (none, w3)

/-- Go `Consumer.FetchMessage`. -/
def Consumer.FetchMessage (env : Env) (w : World) : Except Err Message × World :=
  (env.fetch w.fetchCalls, { w with fetchCalls := w.fetchCalls + 1, ticks := w.ticks + 1 })

/-- Go `Consumer.CommitMessages` for one message: a successful commit moves the committed
position just past the message, a failed one leaves it. -/
def Consumer.CommitMessages (env : Env) (msg : Message) (w : World) : Option Err × World :=
  match env.commitErr w.commitCalls.length with
  | some e => (some e, { w with commitCalls := w.commitCalls ++ [msg], ticks := w.ticks + 1 })
  | none =>
    (none, { w with commitCalls := w.commitCalls ++ [msg], offset := msg.Offset + 1,
                    ticks := w.ticks + 1 })

/-- Go `Metrics.IncrementProcessed`. -/
def Metrics.IncrementProcessed (w : World) : World :=
  { w with messagesProcessed := w.messagesProcessed + 1 }

/-- Go `Metrics.IncrementFailed`. -/
def Metrics.IncrementFailed (w : World) : World :=
  { w with messagesFailed := w.messagesFailed + 1 }

/-- Go `Metrics.RecordProcessingTime`. -/
def Metrics.RecordProcessingTime (duration : Duration) (w : World) : World :=
  { w with processingTime := w.processingTime ++ [duration] }

/-- Go `AnalyticsService.processNextMessage`. -/
def AnalyticsService.processNextMessage (env : Env) (w : World) : Option Err × World :=
  match Consumer.FetchMessage env w with
  | (.error e, w1) => (some e, w1)
  | (.ok msg, w1) =>
    let (startTime, w2) := timeNow env w1
    let (err, w3) := MessageHandler.HandleMessage env msg.Value w2
    let (processingTime, w4) := timeSince env startTime w3
    match err with
    | some e => (some e, Metrics.IncrementFailed w4)
    | none =>
      let w5 := Metrics.IncrementProcessed w4
      let w6 := Metrics.RecordProcessingTime processingTime w5
      let (_commitErr, w7) := Consumer.CommitMessages env msg w6
      (none, w7)

/-! ## Ingestion path (`cmd/traffic-ingestor`) -/

/-- One `SET key value` with its expiration, as passed to `CacheRepository.SetCache`. -/
structure CacheEntry where
  key : String
  value : Bytes
  expiration : Duration
  deriving DecidableEq, Repr

/-- Behaviour of the collaborators of the ingestion path. -/
structure IngestEnv where
  /-- The binder `gin.Context.ShouldBindJSON` into a `models.TrafficData`. -/
  bind : Bytes → Except Err TrafficData
  /-- The `n`-th `gorm.DB.Create` of a reading: the record as the call leaves it behind the
  pointer (generated key, filled-in time stamps) and the error, if the insert fails. -/
  gormCreate : Nat → TrafficData → TrafficData × Option Err
  /-- The encoder `json.Marshal` of a `models.TrafficData`. -/
  marshal : TrafficData → Except Err Bytes
  /-- Error of the `n`-th cache `SET`, if it fails. -/
  setErr : Nat → Option Err
  /-- Error of the `n`-th `Producer.WriteMessages`, if it fails. -/
  writeErr : Nat → Option Err

/-- State owned by the collaborators of the ingestion path. -/
structure IngestWorld where
  /-- Rows of the readings table, oldest first. -/
  table : List TrafficData
  /-- Number of inserts into the readings table issued. -/
  createCalls : Nat
  /-- Live cache entries, at most one per key. -/
  cache : List CacheEntry
  /-- Every `SetCache` call issued, oldest first, whether or not it succeeded. -/
  setCalls : List CacheEntry
  /-- Payloads appended to the topic, oldest first. -/
  log : List Bytes
  /-- Every payload passed to `WriteMessages`, oldest first, whether or not it succeeded. -/
  writeCalls : List Bytes
  deriving DecidableEq, Repr

/-- Go `postgres.TrafficDataRepository.Create`: returns the record behind the pointer, or the
error wrapped; a failed insert leaves the table as it was. The second component is the
record as the call leaves it, which the caller keeps reading through its own pointer. -/
def TrafficDataRepository.Create (env : IngestEnv) (data : TrafficData) (w : IngestWorld) :
    Except Err TrafficData × TrafficData × IngestWorld :=
  match env.gormCreate w.createCalls data with
  | (data1, some e) =>
    (.error (.wrap "error creating traffic data" e), data1,
      { w with createCalls := w.createCalls + 1 })
  | (data1, none) =>
    (.ok data1, data1, { w with table := w.table ++ [data1], createCalls := w.createCalls + 1 })

/-- Go `redis.CacheRepository.SetCache`: a successful `SET` replaces the entry of the key, a
failed one leaves the cache as it was. -/
def CacheRepository.SetCache (env : IngestEnv) (key : String) (value : Bytes)
    (expiration : Duration) (w : IngestWorld) : Option Err × IngestWorld :=
  match env.setErr w.setCalls.length with
  | some e => (some e, { w with setCalls := w.setCalls ++ [⟨key, value, expiration⟩] })
  | none =>
    (none, { w with cache := ⟨key, value, expiration⟩ :: w.cache.filter (fun c => c.key ≠ key),
                    setCalls := w.setCalls ++ [⟨key, value, expiration⟩] })

/-- Go `kafka.Producer.WriteMessages` for one message with the given value. -/
def Producer.WriteMessages (env : IngestEnv) (value : Bytes) (w : IngestWorld) :
    Option Err × IngestWorld :=
  match env.writeErr w.writeCalls.length with
  | some e => (some e, { w with writeCalls := w.writeCalls ++ [value] })
  | none => (none, { w with log := w.log ++ [value], writeCalls := w.writeCalls ++ [value] })

/-- Go `Repository.StoreTrafficData` (traffic-ingestor `repository/repository.go`). The second
component is the record behind the caller's pointer when the call returns. -/
def Repository.StoreTrafficData (env : IngestEnv) (data : TrafficData) (w : IngestWorld) :
    Option Err × TrafficData × IngestWorld :=
  match TrafficDataRepository.Create env data w with
  | (.error e, data1, w1) => (some e, data1, w1)
  | (.ok _, data1, w1) =>
    let key := "latest_traffic:" ++ data1.LocationID
    match env.marshal data1 with
    | .error e => (some e, data1, w1)
    | .ok val =>
      let (err, w2) := CacheRepository.SetCache env key val 0 w1
      (err, data1, w2)

/-- Go `Service.ProcessTrafficData` (traffic-ingestor `service/service.go`). -/
def Service.ProcessTrafficData (env : IngestEnv) (data : TrafficData) (w : IngestWorld) :
    Option Err × IngestWorld :=
  match Repository.StoreTrafficData env data w with
  | (some e, _, w1) => (some e, w1)
  | (none, data1, w1) =>
    match env.marshal data1 with
    | .error e => (some e, w1)
    | .ok msg =>
      match Producer.WriteMessages env msg w1 with
      | (some e, w2) => (some e, w2)
      | (none, w2) => (none, w2)

/-- Go `Handler.ReceiveTrafficData` (traffic-ingestor `handler/handler.go`): the HTTP status of
the response. -/
def Handler.ReceiveTrafficData (env : IngestEnv) (body : Bytes) (w : IngestWorld) :
    Nat × IngestWorld :=
  match env.bind body with
  | .error _ => (400, w)
  | .ok data =>
    match Service.ProcessTrafficData env data w with
    | (some _, w1) => (500, w1)
    | (none, w1) => (200, w1)

/-! ## Consumption loop (`AnalyticsService.Start`) -/

/-- State of the consumption loop: the world, the number of iterations started (one `select`
each) and the durations passed to `time.Sleep`, oldest first. -/
structure LoopState where
  world : World
  iterations : Nat
  sleeps : List Duration
  deriving DecidableEq, Repr

/-- Go `time.Sleep`: an event of the run; the duration is recorded by the caller. -/
def timeSleep (w : World) : World :=
  { w with ticks := w.ticks + 1 }

/-- Go `AnalyticsService.Start`, run for at most `fuel` iterations of its `for` loop.
`done n` tells whether `ctx.Done()` is ready when iteration `n` evaluates its `select`.
The first component is `none` while the loop has not returned, and `some err` once it has
returned `err`. -/
def AnalyticsService.Start (env : Env) (done : Nat → Bool) :
    Nat → LoopState → Option (Option Err) × LoopState
  | 0, s => (none, s)
  | fuel + 1, s =>
    if done s.iterations then
      (some none, { s with iterations := s.iterations + 1 })
    else
      match AnalyticsService.processNextMessage env s.world with
      | (some _, w1) =>
        AnalyticsService.Start env done fuel
          { world := timeSleep w1, iterations := s.iterations + 1,
            sleeps := s.sleeps ++ [1 * Second] }
      | (none, w1) =>
        AnalyticsService.Start env done fuel
          { world := w1, iterations := s.iterations + 1, sleeps := s.sleeps }

/-! ## Configuration (`cmd/analytics-processor/internal/config/config.go`)

The process environment is a function from names to values (`os.Getenv`, which reads an
unset variable as the empty string); `strconv.Atoi` is an oracle returning its integer
result and its error. -/

/-- Go `config.Config`. -/
structure Config where
  KafkaBrokers : List String
  KafkaTopic : String
  KafkaGroupID : String
  MetricsPort : String
  ProcessingTimeout : Int
  BatchSize : Int
  deriving DecidableEq, Repr

/-- Go `getEnv`. -/
def getEnv (getenv : String → String) (key defaultValue : String) : String :=
  let value := getenv key
  if value ≠ "" then value else defaultValue

/-- Go `getIntEnv`; the error of `strconv.Atoi` is discarded. -/
def getIntEnv (getenv : String → String) (atoi : String → Int × Option Err)
    (key : String) (defaultValue : Int) : Int :=
  let value := getenv key
  if value ≠ "" then
    let res := (atoi value).1
    res
  else defaultValue

/-- Go `config.Load`. -/
def Load (getenv : String → String) (atoi : String → Int × Option Err) : Config :=
  { KafkaBrokers := [getEnv getenv "KAFKA_BROKER" "kafka:9092"]
    KafkaTopic := getEnv getenv "KAFKA_TOPIC_TRAFFIC" "traffic-data"
    KafkaGroupID := getEnv getenv "KAFKA_CONSUMER_GROUP" "analytics-processor"
    MetricsPort := getEnv getenv "METRICS_PORT" "8080"
    ProcessingTimeout := getIntEnv getenv atoi "PROCESSING_TIMEOUT" 30
    BatchSize := getIntEnv getenv atoi "BATCH_SIZE" 1 }

/-! ## Theorems -/

/-- C2: for every reading (valid or not), `performAnalysis` returns exactly 5 records, their
metric types are congestion_index, traffic_density, flow_rate, travel_time and delay_index in
this order (so each exactly once), and each record has `PeriodStart` equal to the reading's
timestamp and `PeriodEnd` equal to `PeriodStart` plus 5 minutes (300 000 000 000 ns). -/
theorem performAnalysis_five_records (now : Nat → Time) (data : TrafficData) :
    (analyticsProcessor.performAnalysis now data).length = 5 ∧
    (analyticsProcessor.performAnalysis now data).map (fun r => r.MetricType) =
      ["congestion_index", "traffic_density", "flow_rate", "travel_time", "delay_index"] ∧
    ∀ r ∈ analyticsProcessor.performAnalysis now data,
      r.PeriodStart = data.Timestamp ∧ r.PeriodEnd = ⟨r.PeriodStart.ns + 300000000000⟩ := by
  have hmin : (5 : Int) * Minute = 300000000000 := by
    simp [Minute, Second]
  refine ⟨by simp [analyticsProcessor.performAnalysis], ?_, ?_⟩
  · simp only [analyticsProcessor.performAnalysis, analyticsProcessor.calculateCongestionIndex,
      analyticsProcessor.calculateTrafficDensity, analyticsProcessor.calculateFlowRate,
      analyticsProcessor.calculateTravelTime, analyticsProcessor.calculateDelayIndex]
    by_cases h : data.VehicleCount = 0 <;>
      simp [h, MetricCongestionIndex, MetricTrafficDensity, MetricFlowRate,
        MetricTravelTime, MetricDelayIndex]
  · intro r hr
    simp only [analyticsProcessor.performAnalysis, analyticsProcessor.calculateCongestionIndex,
      analyticsProcessor.calculateTrafficDensity, analyticsProcessor.calculateFlowRate,
      analyticsProcessor.calculateTravelTime, analyticsProcessor.calculateDelayIndex,
      List.nil_append, List.cons_append, List.mem_cons, List.mem_singleton,
      List.not_mem_nil, or_false] at hr
    rcases hr with h | h | h | h | h
    · by_cases hv : data.VehicleCount = 0 <;> simp [h, hv, Time.Add, hmin]
    all_goals simp [h, Time.Add, hmin]

/-- C3, counterexample: the reading with vehicleCount = 250 and averageSpeed = 0 passes both
validators, the claimed formula `((min(1, 250/200)) + max(0, (80 - 0)/80)) / 2` clamped to
[0,1] is 1, and the code computes 1/2, because the speed term is only added when
averageSpeed > 0. -/
theorem congestionIndex_formula_counterexample :
    MessageHandler.validateTrafficData
      { Timestamp := ⟨1⟩, LocationID := "A", VehicleCount := 250, AverageSpeed := 0,
        CongestionLevel := "" } = none ∧
    analyticsProcessor.validateTrafficData
      (some { Timestamp := ⟨1⟩, LocationID := "A", VehicleCount := 250, AverageSpeed := 0,
              CongestionLevel := "" }) = none ∧
    (analyticsProcessor.calculateCongestionIndex ⟨0⟩
      { Timestamp := ⟨1⟩, LocationID := "A", VehicleCount := 250, AverageSpeed := 0,
        CongestionLevel := "" }).Value = 1 / 2 ∧
    min (1 : ℚ) (max 0 ((min 1 ((250 : ℚ) / 200) + max 0 ((80 - 0) / 80)) / 2)) = 1 ∧
    (analyticsProcessor.calculateCongestionIndex ⟨0⟩
      { Timestamp := ⟨1⟩, LocationID := "A", VehicleCount := 250, AverageSpeed := 0,
        CongestionLevel := "" }).Value ≠
      min (1 : ℚ) (max 0 ((min 1 ((250 : ℚ) / 200) + max 0 ((80 - 0) / 80)) / 2)) := by
  have hf : min (1 : ℚ) (max 0 ((min 1 ((250 : ℚ) / 200) + max 0 ((80 - 0) / 80)) / 2)) = 1 := by
    norm_num
  have hv : (analyticsProcessor.calculateCongestionIndex ⟨0⟩
      { Timestamp := ⟨1⟩, LocationID := "A", VehicleCount := 250, AverageSpeed := 0,
        CongestionLevel := "" }).Value = 1 / 2 := by
    simp only [analyticsProcessor.calculateCongestionIndex]
    norm_num
  refine ⟨by decide, ?_, hv, hf, ?_⟩
  · simp [analyticsProcessor.validateTrafficData, Time.IsZero]
  · rw [hv, hf]; norm_num

/-- C3, amended: for every reading accepted by the validator, the congestion_index value is 0
when vehicleCount is 0, and otherwise equals `(min(1, vehicleCount/200) + s) / 2` clamped to
[0,1], where `s = max(0, (80 - averageSpeed)/80)` when averageSpeed > 0 and `s = 0` when
averageSpeed = 0 (exact arithmetic); vehicleCount = 100 with averageSpeed = 40 gives 1/2. -/
theorem congestionIndex_value (now : Time) (data : TrafficData)
    (hvalid : MessageHandler.validateTrafficData data = none) :
    (analyticsProcessor.calculateCongestionIndex now data).Value =
      (if data.VehicleCount = 0 then 0
       else min 1 (max 0 ((min 1 ((data.VehicleCount : ℚ) / 200) +
              (if data.AverageSpeed > 0 then max 0 ((80 - data.AverageSpeed) / 80) else 0)) / 2))) ∧
    (data.VehicleCount = 100 → data.AverageSpeed = 40 →
      (analyticsProcessor.calculateCongestionIndex now data).Value = 1 / 2) := by
  have hcount : 0 ≤ data.VehicleCount := by
    by_contra hneg
    have hlt : data.VehicleCount < 0 := not_le.mp hneg
    unfold MessageHandler.validateTrafficData at hvalid
    by_cases hl : data.LocationID = "" <;> simp [hl, hlt] at hvalid
  have hq : (0 : ℚ) ≤ (data.VehicleCount : ℚ) := by exact_mod_cast hcount
  constructor
  · unfold analyticsProcessor.calculateCongestionIndex
    by_cases h0 : data.VehicleCount = 0
    · simp [h0]
    · simp only [h0, if_false]
      have hc : (0 : ℚ) ≤ min 1 ((data.VehicleCount : ℚ) / 200) :=
        le_min (by norm_num) (div_nonneg hq (by norm_num))
      have hmin : (if (data.VehicleCount : ℚ) / 200 > 1 then (1 : ℚ)
          else (data.VehicleCount : ℚ) / 200) = min 1 ((data.VehicleCount : ℚ) / 200) := by
        by_cases h1 : (data.VehicleCount : ℚ) / 200 > 1
        · rw [if_pos h1, min_eq_left (le_of_lt h1)]
        · rw [if_neg h1, min_eq_right (not_lt.mp h1)]
      have hspeed : (if data.AverageSpeed > 0 then
            (if (80 - data.AverageSpeed) / 80 < 0 then (0 : ℚ) else (80 - data.AverageSpeed) / 80)
          else 0) =
          (if data.AverageSpeed > 0 then max 0 ((80 - data.AverageSpeed) / 80) else 0) := by
        by_cases hs : data.AverageSpeed > 0
        · rw [if_pos hs, if_pos hs]
          by_cases hn : (80 - data.AverageSpeed) / 80 < 0
          · rw [if_pos hn, max_eq_left (le_of_lt hn)]
          · rw [if_neg hn, max_eq_right (not_lt.mp hn)]
        · rw [if_neg hs, if_neg hs]
      have hs0 : (0 : ℚ) ≤
          (if data.AverageSpeed > 0 then max 0 ((80 - data.AverageSpeed) / 80) else 0) := by
        by_cases hs : data.AverageSpeed > 0
        · rw [if_pos hs]; exact le_max_left _ _
        · rw [if_neg hs]
      show (if _ > (1 : ℚ) then (1 : ℚ) else _) = _
      rw [hmin, hspeed]
      have hsum : (0 : ℚ) ≤ (min 1 ((data.VehicleCount : ℚ) / 200) +
          (if data.AverageSpeed > 0 then max 0 ((80 - data.AverageSpeed) / 80) else 0)) / 2 :=
        div_nonneg (add_nonneg hc hs0) (by norm_num)
      rw [max_eq_right hsum]
      by_cases h1 : (min 1 ((data.VehicleCount : ℚ) / 200) +
          (if data.AverageSpeed > 0 then max 0 ((80 - data.AverageSpeed) / 80) else 0)) / 2 > 1
      · rw [if_pos h1, min_eq_left (le_of_lt h1)]
      · rw [if_neg h1, min_eq_right (not_lt.mp h1)]
  · intro hc hs
    simp only [analyticsProcessor.calculateCongestionIndex, hc, hs]
    norm_num

/-- C3, amended, at vehicleCount = 250 and averageSpeed = 0: the reading is accepted and
the value is the one given by the amended formula. -/
theorem congestionIndex_value_witness :
    MessageHandler.validateTrafficData
      { Timestamp := ⟨1⟩, LocationID := "A", VehicleCount := 250, AverageSpeed := 0,
        CongestionLevel := "" } = none ∧
    (analyticsProcessor.calculateCongestionIndex ⟨7⟩
      { Timestamp := ⟨1⟩, LocationID := "A", VehicleCount := 250, AverageSpeed := 0,
        CongestionLevel := "" }).Value =
      (if (250 : Int) = 0 then 0
       else min 1 (max 0 ((min 1 (((250 : Int) : ℚ) / 200) +
              (if (0 : ℚ) > 0 then max 0 ((80 - (0 : ℚ)) / 80) else 0)) / 2))) :=
  ⟨by decide,
   (congestionIndex_value ⟨7⟩
      { Timestamp := ⟨1⟩, LocationID := "A", VehicleCount := 250, AverageSpeed := 0,
        CongestionLevel := "" } (by decide)).1⟩

/-- Outside the early return, the trend of the congestion_index record follows the
thresholds: for a reading with a non-zero vehicleCount it is "increasing" above 0.7,
"decreasing" below 0.3 and "stable" otherwise. -/
theorem congestionIndex_trend_nonzero (now : Time) (data : TrafficData)
    (hcount : data.VehicleCount ≠ 0) :
    (analyticsProcessor.calculateCongestionIndex now data).Trend =
      (if (analyticsProcessor.calculateCongestionIndex now data).Value > 7 / 10 then "increasing"
       else if (analyticsProcessor.calculateCongestionIndex now data).Value < 3 / 10 then
         "decreasing"
       else "stable") := by
  simp only [analyticsProcessor.calculateCongestionIndex, hcount, if_false,
    analyticsProcessor.determineTrend]

/-- C4, failing input: for the reading with vehicleCount = 0 (accepted by both validators)
the congestion_index record has value 0, which is less than 0.3, yet its trend is the empty
string and not "decreasing": the early return for a zero count builds the record without
calling `determineTrend`, which the other branch of the same function does call. -/
theorem congestionIndex_trend_zero_count :
    MessageHandler.validateTrafficData
      { Timestamp := ⟨1⟩, LocationID := "A", VehicleCount := 0, AverageSpeed := 80,
        CongestionLevel := "low" } = none ∧
    analyticsProcessor.validateTrafficData
      (some { Timestamp := ⟨1⟩, LocationID := "A", VehicleCount := 0, AverageSpeed := 80,
              CongestionLevel := "low" }) = none ∧
    (analyticsProcessor.calculateCongestionIndex ⟨0⟩
      { Timestamp := ⟨1⟩, LocationID := "A", VehicleCount := 0, AverageSpeed := 80,
        CongestionLevel := "low" }).Value = 0 ∧
    (analyticsProcessor.calculateCongestionIndex ⟨0⟩
      { Timestamp := ⟨1⟩, LocationID := "A", VehicleCount := 0, AverageSpeed := 80,
        CongestionLevel := "low" }).Trend = "" ∧
    analyticsProcessor.determineTrend 0 = "decreasing" := by
  refine ⟨?_, ?_, ?_, ?_, ?_⟩
  · simp [MessageHandler.validateTrafficData, validLevels, CongestionLow]
  · simp [analyticsProcessor.validateTrafficData, validLevels, CongestionLow, Time.IsZero]
  · simp [analyticsProcessor.calculateCongestionIndex]
  · simp [analyticsProcessor.calculateCongestionIndex]
  · simp only [analyticsProcessor.determineTrend]
    norm_num

/-- The level check of the validators accepts exactly the four enumerated levels. -/
theorem validLevels_iff (level : String) :
    validLevels level = true ↔
      level = "low" ∨ level = "medium" ∨ level = "high" ∨ level = "severe" := by
  simp [validLevels, CongestionLow, CongestionMedium, CongestionHigh, CongestionSevere,
    or_assoc]

/-- The handler's validator returns no error exactly under the four rules. -/
theorem handler_validate_none_iff (data : TrafficData) :
    MessageHandler.validateTrafficData data = none ↔
      (data.LocationID ≠ "" ∧ 0 ≤ data.VehicleCount ∧ 0 ≤ data.AverageSpeed ∧
        (data.CongestionLevel = "" ∨ data.CongestionLevel = "low" ∨
          data.CongestionLevel = "medium" ∨ data.CongestionLevel = "high" ∨
          data.CongestionLevel = "severe")) := by
  unfold MessageHandler.validateTrafficData
  by_cases hl : data.LocationID = ""
  · simp [hl]
  by_cases hc : data.VehicleCount < 0
  · simp [hl, hc]
  by_cases hs : data.AverageSpeed < 0
  · simp [hl, hc, hs]
  by_cases he : data.CongestionLevel = ""
  · simp [hl, hc, hs, he, not_lt.mp hc, not_lt.mp hs]
  by_cases hv : validLevels data.CongestionLevel = true
  · have hv2 := (validLevels_iff _).mp hv
    simp [hl, hc, hs, he, hv, not_lt.mp hc, not_lt.mp hs, hv2]
  · have hv2 : ¬ (data.CongestionLevel = "low" ∨ data.CongestionLevel = "medium" ∨
        data.CongestionLevel = "high" ∨ data.CongestionLevel = "severe") :=
      fun h => hv ((validLevels_iff _).mpr h)
    simp [hl, hc, hs, he, hv, hv2]

/-- C5: `MessageHandler.validateTrafficData` accepts a reading if and only if all four rules
hold: locationId is non-empty, vehicleCount >= 0, averageSpeed >= 0, and congestionLevel is
empty or exactly one of "low", "medium", "high", "severe"; the match is case-sensitive, so a
reading with congestionLevel "Low" is rejected. -/
theorem validateTrafficData_accepts_iff (data : TrafficData) :
    (MessageHandler.validateTrafficData data = none ↔
      (data.LocationID ≠ "" ∧ 0 ≤ data.VehicleCount ∧ 0 ≤ data.AverageSpeed ∧
        (data.CongestionLevel = "" ∨ data.CongestionLevel = "low" ∨
          data.CongestionLevel = "medium" ∨ data.CongestionLevel = "high" ∨
          data.CongestionLevel = "severe"))) ∧
    (data.CongestionLevel = "Low" → MessageHandler.validateTrafficData data ≠ none) := by
  refine ⟨handler_validate_none_iff data, ?_⟩
  intro hLow hnone
  have h := ((handler_validate_none_iff data).mp hnone).2.2.2
  rw [hLow] at h
  revert h
  decide

/-- C6: when a reading violates at least one rule, `MessageHandler.validateTrafficData`
returns the failure of the first violated rule in the order locationId, vehicleCount,
averageSpeed, congestionLevel, carrying the offending value; a reading whose only violation
is congestionLevel "urgent" fails with the congestion-level error naming "urgent"; and on the
consumption path `HandleMessage` returns exactly this failure, wrapped, for a payload that
decodes to the reading. -/
theorem validateTrafficData_first_failure (data : TrafficData) :
    (data.LocationID = "" →
      MessageHandler.validateTrafficData data = some (.errorf "location_id is required")) ∧
    (data.LocationID ≠ "" → data.VehicleCount < 0 →
      MessageHandler.validateTrafficData data = some (.vehicleCount data.VehicleCount)) ∧
    (data.LocationID ≠ "" → 0 ≤ data.VehicleCount → data.AverageSpeed < 0 →
      MessageHandler.validateTrafficData data = some (.averageSpeed data.AverageSpeed)) ∧
    (data.LocationID ≠ "" → 0 ≤ data.VehicleCount → 0 ≤ data.AverageSpeed →
      ¬ (data.CongestionLevel = "" ∨ data.CongestionLevel = "low" ∨
          data.CongestionLevel = "medium" ∨ data.CongestionLevel = "high" ∨
          data.CongestionLevel = "severe") →
      MessageHandler.validateTrafficData data =
        some (.congestionLevel data.CongestionLevel)) ∧
    (data.LocationID ≠ "" → 0 ≤ data.VehicleCount → 0 ≤ data.AverageSpeed →
      data.CongestionLevel = "urgent" →
      MessageHandler.validateTrafficData data = some (.congestionLevel "urgent")) ∧
    (∀ (env : Env) (payload : Bytes) (w : World) (e : Err),
      env.unmarshal payload = .ok data → MessageHandler.validateTrafficData data = some e →
      (MessageHandler.HandleMessage env payload w).1 =
        some (.wrap "failed to parse traffic data" (.wrap "data validation failed" e))) := by
  have h4 : data.LocationID ≠ "" → 0 ≤ data.VehicleCount → 0 ≤ data.AverageSpeed →
      ¬ (data.CongestionLevel = "" ∨ data.CongestionLevel = "low" ∨
          data.CongestionLevel = "medium" ∨ data.CongestionLevel = "high" ∨
          data.CongestionLevel = "severe") →
      MessageHandler.validateTrafficData data =
        some (.congestionLevel data.CongestionLevel) := by
    intro hl hc hs hlev
    have he : data.CongestionLevel ≠ "" := fun h => hlev (Or.inl h)
    have hv : ¬ validLevels data.CongestionLevel = true :=
      fun h => hlev (Or.inr ((validLevels_iff _).mp h))
    simp [MessageHandler.validateTrafficData, hl, not_lt.mpr hc, not_lt.mpr hs, he, hv]
  refine ⟨?_, ?_, ?_, h4, ?_, ?_⟩
  · intro hl
    simp [MessageHandler.validateTrafficData, hl]
  · intro hl hc
    simp [MessageHandler.validateTrafficData, hl, hc]
  · intro hl hc hs
    simp [MessageHandler.validateTrafficData, hl, not_lt.mpr hc, hs]
  · intro hl hc hs hu
    have h := h4 hl hc hs (by rw [hu]; decide)
    rw [h, hu]
  · intro env payload w e hu hv
    simp [MessageHandler.HandleMessage, MessageHandler.parseTrafficData, timeNow, hu, hv]

/-! ### Consumption path: what the persist loop touches -/

/-- The persist loop changes nothing but the analytics table, the insert count and the
event count. -/
theorem storeResults_frame (env : Env) (results : List AnalyticsResult) (w : World) :
    (analyticsProcessor.storeResults env results w).2.commitCalls = w.commitCalls ∧
    (analyticsProcessor.storeResults env results w).2.offset = w.offset ∧
    (analyticsProcessor.storeResults env results w).2.fetchCalls = w.fetchCalls ∧
    (analyticsProcessor.storeResults env results w).2.messagesProcessed = w.messagesProcessed ∧
    (analyticsProcessor.storeResults env results w).2.messagesFailed = w.messagesFailed ∧
    (analyticsProcessor.storeResults env results w).2.processingTime = w.processingTime := by
  induction results generalizing w with
  | nil => simp [analyticsProcessor.storeResults]
  | cons r rest ih =>
    simp only [analyticsProcessor.storeResults, Repository.StoreAnalyticsResult,
      TrafficDataRepository.CreateAnalyticsResult]
    cases hs : env.storeErr w.storeCalls with
    | some e => simp
    | none =>
      simp only []
      have h := ih { w with rows := w.rows ++ [r], storeCalls := w.storeCalls + 1,
                            ticks := w.ticks + 1 }
      simpa using h

/-- The persist loop succeeds exactly when none of its inserts fails. -/
theorem storeResults_none_iff (env : Env) (results : List AnalyticsResult) (w : World) :
    (analyticsProcessor.storeResults env results w).1 = none ↔
      ∀ i, i < results.length → env.storeErr (w.storeCalls + i) = none := by
  induction results generalizing w with
  | nil => simp [analyticsProcessor.storeResults]
  | cons r rest ih =>
    simp only [analyticsProcessor.storeResults, Repository.StoreAnalyticsResult,
      TrafficDataRepository.CreateAnalyticsResult]
    cases hs : env.storeErr w.storeCalls with
    | some e =>
      simp only [List.length_cons]
      constructor
      · intro h; simp at h
      · intro h
        have h0 := h 0 (Nat.succ_pos _)
        simp [hs] at h0
    | none =>
      simp only [List.length_cons]
      rw [ih]
      simp only []
      constructor
      · intro h i hi
        cases i with
        | zero => simpa using hs
        | succ j =>
          have hj := h j (Nat.lt_of_succ_lt_succ hi)
          have e1 : w.storeCalls + (j + 1) = w.storeCalls + 1 + j := by omega
          rw [e1]; exact hj
      · intro h i hi
        have hj := h (i + 1) (Nat.succ_lt_succ hi)
        have e1 : w.storeCalls + (i + 1) = w.storeCalls + 1 + i := by omega
        rw [← e1]; exact hj

/-- A failing persist loop returns the error of one of its inserts, wrapped. -/
theorem storeResults_error (env : Env) (results : List AnalyticsResult) (w : World) :
    (analyticsProcessor.storeResults env results w).1 = none ∨
    ∃ i e, i < results.length ∧ env.storeErr (w.storeCalls + i) = some e ∧
      (analyticsProcessor.storeResults env results w).1 =
        some (.wrap "failed to store analytics result" e) := by
  induction results generalizing w with
  | nil => left; simp [analyticsProcessor.storeResults]
  | cons r rest ih =>
    simp only [analyticsProcessor.storeResults, Repository.StoreAnalyticsResult,
      TrafficDataRepository.CreateAnalyticsResult]
    cases hs : env.storeErr w.storeCalls with
    | some e =>
      right
      exact ⟨0, e, by simp, by simpa using hs, by simp⟩
    | none =>
      simp only []
      rcases ih { w with rows := w.rows ++ [r], storeCalls := w.storeCalls + 1,
                         ticks := w.ticks + 1 } with h | ⟨i, e, hi, he, hr⟩
      · left; exact h
      · right
        refine ⟨i + 1, e, by simpa using hi, ?_, hr⟩
        have e1 : w.storeCalls + (i + 1) = w.storeCalls + 1 + i := by omega
        rw [e1]; exact he

/-- The derived list always has five records. -/
theorem performAnalysis_length (now : Nat → Time) (data : TrafficData) :
    (analyticsProcessor.performAnalysis now data).length = 5 := by
  simp [analyticsProcessor.performAnalysis]

/-- Handling a message with `HandleMessage` changes neither the commit history, nor the committed position, nor
the counters, nor the fetch count. -/
theorem HandleMessage_frame (env : Env) (payload : Bytes) (w : World) :
    (MessageHandler.HandleMessage env payload w).2.commitCalls = w.commitCalls ∧
    (MessageHandler.HandleMessage env payload w).2.offset = w.offset ∧
    (MessageHandler.HandleMessage env payload w).2.fetchCalls = w.fetchCalls ∧
    (MessageHandler.HandleMessage env payload w).2.messagesProcessed = w.messagesProcessed ∧
    (MessageHandler.HandleMessage env payload w).2.messagesFailed = w.messagesFailed ∧
    (MessageHandler.HandleMessage env payload w).2.processingTime = w.processingTime := by
  simp only [MessageHandler.HandleMessage, timeNow, timeSince]
  cases hp : MessageHandler.parseTrafficData env payload with
  | error e => simp
  | ok d =>
    simp only [analyticsProcessor.ProcessTrafficData]
    cases hv : analyticsProcessor.validateTrafficData (some d) with
    | some e => simp
    | none =>
      simp only []
      have h := storeResults_frame env
        (analyticsProcessor.performAnalysis (fun i => env.clock (w.ticks + 1 + i)) d)
        { w with ticks := w.ticks + 1 + 5 }
      generalize analyticsProcessor.storeResults env
        (analyticsProcessor.performAnalysis (fun i => env.clock (w.ticks + 1 + i)) d)
        { w with ticks := w.ticks + 1 + 5 } = res at h ⊢
      obtain ⟨err, w2⟩ := res
      cases err with
      | some e => simpa using h
      | none => simpa using h

/-- The call of `HandleMessage` returns no error exactly when the payload decodes, both validators
accept the reading, and none of the five inserts fails. -/
theorem HandleMessage_none_iff (env : Env) (payload : Bytes) (w : World) :
    (MessageHandler.HandleMessage env payload w).1 = none ↔
      ∃ d, env.unmarshal payload = .ok d ∧ MessageHandler.validateTrafficData d = none ∧
        analyticsProcessor.validateTrafficData (some d) = none ∧
        ∀ i, i < 5 → env.storeErr (w.storeCalls + i) = none := by
  simp only [MessageHandler.HandleMessage, timeNow, timeSince,
    MessageHandler.parseTrafficData]
  cases hu : env.unmarshal payload with
  | error e => simp
  | ok d =>
    simp only []
    cases hh : MessageHandler.validateTrafficData d with
    | some e => simp [hh]
    | none =>
      simp only [analyticsProcessor.ProcessTrafficData]
      cases hv : analyticsProcessor.validateTrafficData (some d) with
      | some e => simp [hv]
      | none =>
        simp only []
        have h := storeResults_none_iff env
          (analyticsProcessor.performAnalysis (fun i => env.clock (w.ticks + 1 + i)) d)
          { w with ticks := w.ticks + 1 + 5 }
        rw [performAnalysis_length] at h
        generalize analyticsProcessor.storeResults env
          (analyticsProcessor.performAnalysis (fun i => env.clock (w.ticks + 1 + i)) d)
          { w with ticks := w.ticks + 1 + 5 } = res at h ⊢
        obtain ⟨err, w2⟩ := res
        cases err with
        | some e =>
          simp only [Option.some_ne_none, false_iff] at h
          simp only [reduceCtorEq, false_iff]
          rintro ⟨d2, hd2, -, -, hall⟩
          exact h hall
        | none =>
          simp only [true_iff] at h
          simp only [true_iff]
          exact ⟨d, rfl, hh, hv, h⟩

/-- C1: in an iteration of `processNextMessage` whose fetch returns a message, the process
sequence (`HandleMessage`, run after the fetch and the clock reading) returns no error exactly
when the payload decodes, both validators accept the reading and all 5 inserts succeed; the
commit of that message is attempted (one call, for this message) if and only if the process
sequence returned no error; and when it returned an error no commit call is made and the
committed position is unchanged. -/
theorem processNextMessage_commit_iff (env : Env) (w : World) (msg : Message)
    (hfetch : env.fetch w.fetchCalls = .ok msg) :
    ((MessageHandler.HandleMessage env msg.Value
        { w with fetchCalls := w.fetchCalls + 1, ticks := w.ticks + 1 + 1 }).1 = none ↔
      ∃ d, env.unmarshal msg.Value = .ok d ∧ MessageHandler.validateTrafficData d = none ∧
        analyticsProcessor.validateTrafficData (some d) = none ∧
        ∀ i, i < 5 → env.storeErr (w.storeCalls + i) = none) ∧
    ((AnalyticsService.processNextMessage env w).2.commitCalls = w.commitCalls ++ [msg] ↔
      (MessageHandler.HandleMessage env msg.Value
        { w with fetchCalls := w.fetchCalls + 1, ticks := w.ticks + 1 + 1 }).1 = none) ∧
    ((MessageHandler.HandleMessage env msg.Value
        { w with fetchCalls := w.fetchCalls + 1, ticks := w.ticks + 1 + 1 }).1 ≠ none →
      (AnalyticsService.processNextMessage env w).2.commitCalls = w.commitCalls ∧
      (AnalyticsService.processNextMessage env w).2.offset = w.offset) := by
  have hframe := HandleMessage_frame env msg.Value
    { w with fetchCalls := w.fetchCalls + 1, ticks := w.ticks + 1 + 1 }
  have hiff := HandleMessage_none_iff env msg.Value
    { w with fetchCalls := w.fetchCalls + 1, ticks := w.ticks + 1 + 1 }
  refine ⟨hiff, ?_⟩
  simp only [AnalyticsService.processNextMessage, Consumer.FetchMessage, hfetch, timeNow,
    timeSince, Metrics.IncrementFailed, Metrics.IncrementProcessed,
    Metrics.RecordProcessingTime, Consumer.CommitMessages]
  generalize MessageHandler.HandleMessage env msg.Value
    { w with fetchCalls := w.fetchCalls + 1, ticks := w.ticks + 1 + 1 } = res at hframe ⊢
  obtain ⟨err, w3⟩ := res
  obtain ⟨hc, ho, -⟩ := hframe
  simp only at hc ho
  cases err with
  | some e => simp [hc, ho]
  | none =>
    cases hce : env.commitErr w3.commitCalls.length with
    | some e => simp [hc]
    | none => simp [hc]

/-- C1 at a concrete run: the fetched payload decodes to a valid reading and every insert
succeeds, so the commit of the fetched message is attempted. -/
theorem processNextMessage_commit_iff_witness :
    (AnalyticsService.processNextMessage
      { unmarshal := fun _ => .ok { Timestamp := ⟨1⟩, LocationID := "A", VehicleCount := 100,
                                    AverageSpeed := 40, CongestionLevel := "low" }
        fetch := fun _ => .ok ⟨7, "payload"⟩
        storeErr := fun _ => none
        commitErr := fun _ => none
        clock := fun n => ⟨n⟩ }
      ⟨0, 0, [], 0, [], 7, 0, 0, []⟩).2.commitCalls = [] ++ [⟨7, "payload"⟩] :=
  (processNextMessage_commit_iff
      { unmarshal := fun _ => .ok { Timestamp := ⟨1⟩, LocationID := "A", VehicleCount := 100,
                                    AverageSpeed := 40, CongestionLevel := "low" }
        fetch := fun _ => .ok ⟨7, "payload"⟩
        storeErr := fun _ => none
        commitErr := fun _ => none
        clock := fun n => ⟨n⟩ }
      ⟨0, 0, [], 0, [], 7, 0, 0, []⟩ ⟨7, "payload"⟩ rfl).2.1.mpr
    ((processNextMessage_commit_iff
      { unmarshal := fun _ => .ok { Timestamp := ⟨1⟩, LocationID := "A", VehicleCount := 100,
                                    AverageSpeed := 40, CongestionLevel := "low" }
        fetch := fun _ => .ok ⟨7, "payload"⟩
        storeErr := fun _ => none
        commitErr := fun _ => none
        clock := fun n => ⟨n⟩ }
      ⟨0, 0, [], 0, [], 7, 0, 0, []⟩ ⟨7, "payload"⟩ rfl).1.mpr
      ⟨{ Timestamp := ⟨1⟩, LocationID := "A", VehicleCount := 100, AverageSpeed := 40,
         CongestionLevel := "low" }, rfl,
       by simp [MessageHandler.validateTrafficData, validLevels, CongestionLow],
       by simp [analyticsProcessor.validateTrafficData, validLevels, CongestionLow,
            Time.IsZero],
       fun _ _ => rfl⟩)

/-- C7, counterexample: a reading that satisfies the four rules and has a zero timestamp is
refused by the consumption path: `HandleMessage` returns the validation failure
"timestamp is required" raised by `analyticsProcessor.validateTrafficData`, and no metric
row is written. -/
theorem HandleMessage_zero_timestamp_counterexample :
    MessageHandler.validateTrafficData
      { Timestamp := ⟨0⟩, LocationID := "A", VehicleCount := 100, AverageSpeed := 40,
        CongestionLevel := "low" } = none ∧
    (MessageHandler.HandleMessage
      { unmarshal := fun _ => .ok { Timestamp := ⟨0⟩, LocationID := "A", VehicleCount := 100,
                                    AverageSpeed := 40, CongestionLevel := "low" }
        fetch := fun _ => .ok ⟨7, "payload"⟩
        storeErr := fun _ => none
        commitErr := fun _ => none
        clock := fun n => ⟨n⟩ }
      "payload" ⟨0, 0, [], 0, [], 7, 0, 0, []⟩) =
      (some (.wrap "analytics processing failed"
        (.wrap "invalid traffic data" (.errorf "timestamp is required"))),
       ⟨1, 0, [], 0, [], 7, 0, 0, []⟩) := by
  constructor
  · simp [MessageHandler.validateTrafficData, validLevels, CongestionLow]
  · have h1 : MessageHandler.validateTrafficData
        { Timestamp := ⟨0⟩, LocationID := "A", VehicleCount := 100, AverageSpeed := 40,
          CongestionLevel := "low" } = none := by
      simp [MessageHandler.validateTrafficData, validLevels, CongestionLow]
    have h2 : analyticsProcessor.validateTrafficData
        (some { Timestamp := ⟨0⟩, LocationID := "A", VehicleCount := 100, AverageSpeed := 40,
                CongestionLevel := "low" }) = some (.errorf "timestamp is required") := by
      simp [analyticsProcessor.validateTrafficData, Time.IsZero]
    simp [MessageHandler.HandleMessage, MessageHandler.parseTrafficData, timeNow,
      analyticsProcessor.ProcessTrafficData, h1, h2]

/-- C7, amended: the re-validation of the consumption path does re-check the timestamp. For
every payload that decodes to a reading satisfying the four rules: if the timestamp is zero,
`HandleMessage` fails with the validation failure "timestamp is required" and writes no
metric row; if the timestamp is not zero, it reports no validation failure, that is, it
succeeds or returns the error of one of the five inserts. -/
theorem HandleMessage_timestamp (env : Env) (payload : Bytes) (w : World) (d : TrafficData)
    (hdec : env.unmarshal payload = .ok d)
    (hloc : d.LocationID ≠ "") (hcount : 0 ≤ d.VehicleCount) (hspeed : 0 ≤ d.AverageSpeed)
    (hlevel : d.CongestionLevel = "" ∨ d.CongestionLevel = "low" ∨
      d.CongestionLevel = "medium" ∨ d.CongestionLevel = "high" ∨
      d.CongestionLevel = "severe") :
    (d.Timestamp.IsZero = true →
      (MessageHandler.HandleMessage env payload w).1 =
        some (.wrap "analytics processing failed"
          (.wrap "invalid traffic data" (.errorf "timestamp is required"))) ∧
      (MessageHandler.HandleMessage env payload w).2.rows = w.rows) ∧
    (d.Timestamp.IsZero = false →
      (MessageHandler.HandleMessage env payload w).1 = none ∨
      ∃ i e, i < 5 ∧ env.storeErr (w.storeCalls + i) = some e ∧
        (MessageHandler.HandleMessage env payload w).1 =
          some (.wrap "analytics processing failed"
            (.wrap "failed to store analytics result" e))) := by
  have hh : MessageHandler.validateTrafficData d = none :=
    (handler_validate_none_iff d).mpr ⟨hloc, hcount, hspeed, hlevel⟩
  have hlev : d.CongestionLevel ≠ "" → validLevels d.CongestionLevel = true := by
    intro hne
    rcases hlevel with h | h
    · exact absurd h hne
    · exact (validLevels_iff _).mpr h
  constructor
  · intro hz
    simp [MessageHandler.HandleMessage, MessageHandler.parseTrafficData, timeNow, hdec, hh,
      analyticsProcessor.ProcessTrafficData, analyticsProcessor.validateTrafficData, hloc,
      not_lt.mpr hcount, not_lt.mpr hspeed, hz]
  · intro hz
    have hv : analyticsProcessor.validateTrafficData (some d) = none := by
      by_cases he : d.CongestionLevel = ""
      · simp [analyticsProcessor.validateTrafficData, hloc, not_lt.mpr hcount,
          not_lt.mpr hspeed, hz, he]
      · simp [analyticsProcessor.validateTrafficData, hloc, not_lt.mpr hcount,
          not_lt.mpr hspeed, hz, he, hlev he]
    simp only [MessageHandler.HandleMessage, MessageHandler.parseTrafficData, timeNow,
      timeSince, hdec, hh, analyticsProcessor.ProcessTrafficData, hv]
    have h := storeResults_error env
      (analyticsProcessor.performAnalysis (fun i => env.clock (w.ticks + 1 + i)) d)
      { w with ticks := w.ticks + 1 + 5 }
    rw [performAnalysis_length] at h
    generalize analyticsProcessor.storeResults env
      (analyticsProcessor.performAnalysis (fun i => env.clock (w.ticks + 1 + i)) d)
      { w with ticks := w.ticks + 1 + 5 } = res at h ⊢
    obtain ⟨err, w2⟩ := res
    cases err with
    | none => left; rfl
    | some e0 =>
      right
      rcases h with h | ⟨i, e, hi, he, hr⟩
      · simp at h
      · simp only [Option.some.injEq] at hr
        exact ⟨i, e, hi, he, by simp [hr]⟩

/-- C7, amended, at a concrete payload whose reading has a non-zero timestamp. -/
theorem HandleMessage_timestamp_witness :
    ((⟨1⟩ : Time).IsZero = true →
      (MessageHandler.HandleMessage
        { unmarshal := fun _ => .ok { Timestamp := ⟨1⟩, LocationID := "A",
                                      VehicleCount := 100, AverageSpeed := 40,
                                      CongestionLevel := "low" }
          fetch := fun _ => .ok ⟨7, "payload"⟩
          storeErr := fun _ => none
          commitErr := fun _ => none
          clock := fun n => ⟨n⟩ }
        "payload" ⟨0, 0, [], 0, [], 7, 0, 0, []⟩).1 =
        some (.wrap "analytics processing failed"
          (.wrap "invalid traffic data" (.errorf "timestamp is required"))) ∧
      (MessageHandler.HandleMessage
        { unmarshal := fun _ => .ok { Timestamp := ⟨1⟩, LocationID := "A",
                                      VehicleCount := 100, AverageSpeed := 40,
                                      CongestionLevel := "low" }
          fetch := fun _ => .ok ⟨7, "payload"⟩
          storeErr := fun _ => none
          commitErr := fun _ => none
          clock := fun n => ⟨n⟩ }
        "payload" ⟨0, 0, [], 0, [], 7, 0, 0, []⟩).2.rows = []) ∧
    ((⟨1⟩ : Time).IsZero = false →
      (MessageHandler.HandleMessage
        { unmarshal := fun _ => .ok { Timestamp := ⟨1⟩, LocationID := "A",
                                      VehicleCount := 100, AverageSpeed := 40,
                                      CongestionLevel := "low" }
          fetch := fun _ => .ok ⟨7, "payload"⟩
          storeErr := fun _ => none
          commitErr := fun _ => none
          clock := fun n => ⟨n⟩ }
        "payload" ⟨0, 0, [], 0, [], 7, 0, 0, []⟩).1 = none ∨
      ∃ i e, i < 5 ∧ (none : Option Err) = some e ∧
        (MessageHandler.HandleMessage
          { unmarshal := fun _ => .ok { Timestamp := ⟨1⟩, LocationID := "A",
                                        VehicleCount := 100, AverageSpeed := 40,
                                        CongestionLevel := "low" }
            fetch := fun _ => .ok ⟨7, "payload"⟩
            storeErr := fun _ => none
            commitErr := fun _ => none
            clock := fun n => ⟨n⟩ }
          "payload" ⟨0, 0, [], 0, [], 7, 0, 0, []⟩).1 =
          some (.wrap "analytics processing failed"
            (.wrap "failed to store analytics result" e))) :=
  HandleMessage_timestamp
    { unmarshal := fun _ => .ok { Timestamp := ⟨1⟩, LocationID := "A",
                                  VehicleCount := 100, AverageSpeed := 40,
                                  CongestionLevel := "low" }
      fetch := fun _ => .ok ⟨7, "payload"⟩
      storeErr := fun _ => none
      commitErr := fun _ => none
      clock := fun n => ⟨n⟩ }
    "payload" ⟨0, 0, [], 0, [], 7, 0, 0, []⟩
    { Timestamp := ⟨1⟩, LocationID := "A", VehicleCount := 100, AverageSpeed := 40,
      CongestionLevel := "low" }
    rfl (by decide) (by decide) (by norm_num) (Or.inr (Or.inl rfl))

/-! ### Ingestion path -/

/-- C8, failing input: a reading with congestionLevel "urgent", which the validator
rejects with the congestion-level failure, is not rejected on the ingestion path: with
working backends `Service.ProcessTrafficData` returns no error after writing the row, the
cache entry and the log record, and the handler answers 200 and not 400. The rules are
declared on `models.TrafficData` as `validate:` struct tags and the handler has a 400 branch
for a failed bind, but the binder does not read those tags, so no rule is enforced. -/
theorem ingest_invalid_reading_accepted :
    MessageHandler.validateTrafficData
      { Timestamp := ⟨1⟩, LocationID := "A", VehicleCount := 100, AverageSpeed := 40,
        CongestionLevel := "urgent" } = some (.congestionLevel "urgent") ∧
    Service.ProcessTrafficData
      { bind := fun _ => .ok { Timestamp := ⟨1⟩, LocationID := "A", VehicleCount := 100,
                               AverageSpeed := 40, CongestionLevel := "urgent" }
        gormCreate := fun _ d => (d, none)
        marshal := fun _ => .ok "json"
        setErr := fun _ => none
        writeErr := fun _ => none }
      { Timestamp := ⟨1⟩, LocationID := "A", VehicleCount := 100, AverageSpeed := 40,
        CongestionLevel := "urgent" }
      ⟨[], 0, [], [], [], []⟩ =
      (none,
       ⟨[{ Timestamp := ⟨1⟩, LocationID := "A", VehicleCount := 100, AverageSpeed := 40,
           CongestionLevel := "urgent" }], 1,
        [⟨"latest_traffic:A", "json", 0⟩], [⟨"latest_traffic:A", "json", 0⟩],
        ["json"], ["json"]⟩) ∧
    (Handler.ReceiveTrafficData
      { bind := fun _ => .ok { Timestamp := ⟨1⟩, LocationID := "A", VehicleCount := 100,
                               AverageSpeed := 40, CongestionLevel := "urgent" }
        gormCreate := fun _ d => (d, none)
        marshal := fun _ => .ok "json"
        setErr := fun _ => none
        writeErr := fun _ => none }
      "body" ⟨[], 0, [], [], [], []⟩).1 = 200 := by
  refine ⟨?_, ?_, ?_⟩
  · decide
  · simp [Service.ProcessTrafficData, Repository.StoreTrafficData,
      TrafficDataRepository.Create, CacheRepository.SetCache, Producer.WriteMessages]
  · simp [Handler.ReceiveTrafficData, Service.ProcessTrafficData,
      Repository.StoreTrafficData, TrafficDataRepository.Create, CacheRepository.SetCache,
      Producer.WriteMessages]

/-- The extent of the missing validation on the ingestion path, as the code stands:
`Service.ProcessTrafficData` calls no validator. For every reading, accepted by the
validator or not, the relational write is attempted; an error returned by the call is the
error of the relational write (wrapped by the store repository), of the serialization, of
the cache write or of the log append, never a validation failure; and when these four
succeed the call returns no error, having written the row, the cache entry and the log
record. -/
theorem ingest_no_validation (env : IngestEnv) (d : TrafficData) (w : IngestWorld) :
    (Service.ProcessTrafficData env d w).2.createCalls = w.createCalls + 1 ∧
    (∀ e, (Service.ProcessTrafficData env d w).1 = some e →
      (∃ e1, (env.gormCreate w.createCalls d).2 = some e1 ∧
        e = .wrap "error creating traffic data" e1) ∨
      env.marshal (env.gormCreate w.createCalls d).1 = .error e ∨
      env.setErr w.setCalls.length = some e ∨
      env.writeErr w.writeCalls.length = some e) ∧
    (∀ val, (env.gormCreate w.createCalls d).2 = none →
      env.marshal (env.gormCreate w.createCalls d).1 = .ok val →
      env.setErr w.setCalls.length = none →
      env.writeErr w.writeCalls.length = none →
      Service.ProcessTrafficData env d w =
        (none,
         { table := w.table ++ [(env.gormCreate w.createCalls d).1]
           createCalls := w.createCalls + 1
           cache := ⟨"latest_traffic:" ++ (env.gormCreate w.createCalls d).1.LocationID, val, 0⟩ ::
             w.cache.filter (fun c =>
               c.key ≠ "latest_traffic:" ++ (env.gormCreate w.createCalls d).1.LocationID)
           setCalls := w.setCalls ++
             [⟨"latest_traffic:" ++ (env.gormCreate w.createCalls d).1.LocationID, val, 0⟩]
           log := w.log ++ [val]
           writeCalls := w.writeCalls ++ [val] })) := by
  simp only [Service.ProcessTrafficData, Repository.StoreTrafficData,
    TrafficDataRepository.Create, CacheRepository.SetCache, Producer.WriteMessages]
  generalize env.gormCreate w.createCalls d = r
  obtain ⟨d1, cerr⟩ := r
  cases cerr with
  | some e1 => simp
  | none =>
    simp only []
    cases hm : env.marshal d1 with
    | error e2 => simp
    | ok val =>
      simp only []
      cases hs : env.setErr w.setCalls.length with
      | some e3 => simp
      | none =>
        simp only [hm]
        cases hw : env.writeErr w.writeCalls.length with
        | some e4 => simp
        | none => simp

/-- C9: whenever the relational write fails, `Repository.StoreTrafficData` returns an error
(the store's error, wrapped by the store repository), issues no cache write and leaves the
cache and the readings table unchanged. -/
theorem StoreTrafficData_relational_failure (env : IngestEnv) (d : TrafficData)
    (w : IngestWorld) (e : Err) (hfail : (env.gormCreate w.createCalls d).2 = some e) :
    (Repository.StoreTrafficData env d w).1 = some (.wrap "error creating traffic data" e) ∧
    (Repository.StoreTrafficData env d w).2.2.setCalls = w.setCalls ∧
    (Repository.StoreTrafficData env d w).2.2.cache = w.cache ∧
    (Repository.StoreTrafficData env d w).2.2.table = w.table := by
  simp only [Repository.StoreTrafficData, TrafficDataRepository.Create]
  generalize env.gormCreate w.createCalls d = r at hfail ⊢
  obtain ⟨d1, cerr⟩ := r
  simp only at hfail
  subst hfail
  simp

/-- C9 at a concrete run whose relational write fails. -/
theorem StoreTrafficData_relational_failure_witness :
    (Repository.StoreTrafficData
      { bind := fun _ => .error (.backend "no body")
        gormCreate := fun _ d => (d, some (.backend "connection refused"))
        marshal := fun _ => .ok "json"
        setErr := fun _ => none
        writeErr := fun _ => none }
      { Timestamp := ⟨1⟩, LocationID := "A", VehicleCount := 100, AverageSpeed := 40,
        CongestionLevel := "low" }
      ⟨[], 0, [⟨"latest_traffic:A", "old", 0⟩], [], [], []⟩).1 =
      some (.wrap "error creating traffic data" (.backend "connection refused")) ∧
    (Repository.StoreTrafficData
      { bind := fun _ => .error (.backend "no body")
        gormCreate := fun _ d => (d, some (.backend "connection refused"))
        marshal := fun _ => .ok "json"
        setErr := fun _ => none
        writeErr := fun _ => none }
      { Timestamp := ⟨1⟩, LocationID := "A", VehicleCount := 100, AverageSpeed := 40,
        CongestionLevel := "low" }
      ⟨[], 0, [⟨"latest_traffic:A", "old", 0⟩], [], [], []⟩).2.2.setCalls = [] ∧
    (Repository.StoreTrafficData
      { bind := fun _ => .error (.backend "no body")
        gormCreate := fun _ d => (d, some (.backend "connection refused"))
        marshal := fun _ => .ok "json"
        setErr := fun _ => none
        writeErr := fun _ => none }
      { Timestamp := ⟨1⟩, LocationID := "A", VehicleCount := 100, AverageSpeed := 40,
        CongestionLevel := "low" }
      ⟨[], 0, [⟨"latest_traffic:A", "old", 0⟩], [], [], []⟩).2.2.cache =
      [⟨"latest_traffic:A", "old", 0⟩] ∧
    (Repository.StoreTrafficData
      { bind := fun _ => .error (.backend "no body")
        gormCreate := fun _ d => (d, some (.backend "connection refused"))
        marshal := fun _ => .ok "json"
        setErr := fun _ => none
        writeErr := fun _ => none }
      { Timestamp := ⟨1⟩, LocationID := "A", VehicleCount := 100, AverageSpeed := 40,
        CongestionLevel := "low" }
      ⟨[], 0, [⟨"latest_traffic:A", "old", 0⟩], [], [], []⟩).2.2.table = [] :=
  StoreTrafficData_relational_failure
    { bind := fun _ => .error (.backend "no body")
      gormCreate := fun _ d => (d, some (.backend "connection refused"))
      marshal := fun _ => .ok "json"
      setErr := fun _ => none
      writeErr := fun _ => none }
    { Timestamp := ⟨1⟩, LocationID := "A", VehicleCount := 100, AverageSpeed := 40,
      CongestionLevel := "low" }
    ⟨[], 0, [⟨"latest_traffic:A", "old", 0⟩], [], [], []⟩
    (.backend "connection refused") rfl

/-- C10: whenever the relational write succeeds (and the reading serializes),
`Repository.StoreTrafficData` issues exactly one cache write, to the key "latest_traffic:"
followed by the reading's locationId, with the serialized reading as value and expiration 0,
and returns the result of that cache write; the row stays in the readings table whatever
that result is, so when the cache write fails the call fails, the row is in place and the
cache is as it was. The reading is read through its pointer after the relational write,
hence as that write left it. -/
theorem StoreTrafficData_relational_success (env : IngestEnv) (d : TrafficData)
    (w : IngestWorld) (val : Bytes) (hok : (env.gormCreate w.createCalls d).2 = none)
    (hser : env.marshal (env.gormCreate w.createCalls d).1 = .ok val) :
    (Repository.StoreTrafficData env d w).2.2.setCalls =
      w.setCalls ++
        [⟨"latest_traffic:" ++ (env.gormCreate w.createCalls d).1.LocationID, val, 0⟩] ∧
    (Repository.StoreTrafficData env d w).1 = env.setErr w.setCalls.length ∧
    (Repository.StoreTrafficData env d w).2.2.table =
      w.table ++ [(env.gormCreate w.createCalls d).1] ∧
    (∀ e, env.setErr w.setCalls.length = some e →
      (Repository.StoreTrafficData env d w).1 = some e ∧
      (Repository.StoreTrafficData env d w).2.2.table =
        w.table ++ [(env.gormCreate w.createCalls d).1] ∧
      (Repository.StoreTrafficData env d w).2.2.cache = w.cache) ∧
    (env.setErr w.setCalls.length = none →
      (Repository.StoreTrafficData env d w).2.2.cache =
        ⟨"latest_traffic:" ++ (env.gormCreate w.createCalls d).1.LocationID, val, 0⟩ ::
          w.cache.filter (fun c =>
            c.key ≠ "latest_traffic:" ++ (env.gormCreate w.createCalls d).1.LocationID)) := by
  simp only [Repository.StoreTrafficData, TrafficDataRepository.Create,
    CacheRepository.SetCache]
  generalize env.gormCreate w.createCalls d = r at hok hser ⊢
  obtain ⟨d1, cerr⟩ := r
  simp only at hok hser
  subst hok
  simp only [hser]
  cases hs : env.setErr w.setCalls.length with
  | some e3 => simp
  | none => simp

/-- C10 at a concrete run: the relational write succeeds, filling in the key 42, and the
cache write fails. -/
theorem StoreTrafficData_relational_success_witness :
    (Repository.StoreTrafficData
      { bind := fun _ => .error (.backend "no body")
        gormCreate := fun _ d => ({ d with ID := 42 }, none)
        marshal := fun _ => .ok "json"
        setErr := fun _ => some (.backend "cache down")
        writeErr := fun _ => none }
      { Timestamp := ⟨1⟩, LocationID := "A", VehicleCount := 100, AverageSpeed := 40,
        CongestionLevel := "low" }
      ⟨[], 0, [], [], [], []⟩).2.2.setCalls = [] ++ [⟨"latest_traffic:" ++ "A", "json", 0⟩] ∧
    (Repository.StoreTrafficData
      { bind := fun _ => .error (.backend "no body")
        gormCreate := fun _ d => ({ d with ID := 42 }, none)
        marshal := fun _ => .ok "json"
        setErr := fun _ => some (.backend "cache down")
        writeErr := fun _ => none }
      { Timestamp := ⟨1⟩, LocationID := "A", VehicleCount := 100, AverageSpeed := 40,
        CongestionLevel := "low" }
      ⟨[], 0, [], [], [], []⟩).1 = some (.backend "cache down") ∧
    (Repository.StoreTrafficData
      { bind := fun _ => .error (.backend "no body")
        gormCreate := fun _ d => ({ d with ID := 42 }, none)
        marshal := fun _ => .ok "json"
        setErr := fun _ => some (.backend "cache down")
        writeErr := fun _ => none }
      { Timestamp := ⟨1⟩, LocationID := "A", VehicleCount := 100, AverageSpeed := 40,
        CongestionLevel := "low" }
      ⟨[], 0, [], [], [], []⟩).2.2.table =
      [] ++ [{ ID := 42, Timestamp := ⟨1⟩, LocationID := "A", VehicleCount := 100,
               AverageSpeed := 40, CongestionLevel := "low" }] :=
  have h := StoreTrafficData_relational_success
    { bind := fun _ => .error (.backend "no body")
      gormCreate := fun _ d => ({ d with ID := 42 }, none)
      marshal := fun _ => .ok "json"
      setErr := fun _ => some (.backend "cache down")
      writeErr := fun _ => none }
    { Timestamp := ⟨1⟩, LocationID := "A", VehicleCount := 100, AverageSpeed := 40,
      CongestionLevel := "low" }
    ⟨[], 0, [], [], [], []⟩ "json" rfl rfl
  ⟨h.1, h.2.1, h.2.2.1⟩

/-! ### Metric derivation: the five records -/

/-- The derived list, record by record. -/
theorem performAnalysis_eq (now : Nat → Time) (data : TrafficData) :
    analyticsProcessor.performAnalysis now data =
      [analyticsProcessor.calculateCongestionIndex (now 0) data,
       analyticsProcessor.calculateTrafficDensity (now 1) data,
       analyticsProcessor.calculateFlowRate (now 2) data,
       analyticsProcessor.calculateTravelTime (now 3) data,
       analyticsProcessor.calculateDelayIndex (now 4) data] := by
  simp [analyticsProcessor.performAnalysis]

/-- The metric type written by the congestion-index constructor. -/
theorem calculateCongestionIndex_MetricType (now : Time) (data : TrafficData) :
    (analyticsProcessor.calculateCongestionIndex now data).MetricType = "congestion_index" := by
  unfold analyticsProcessor.calculateCongestionIndex
  by_cases h : data.VehicleCount = 0 <;> simp [h, MetricCongestionIndex]

/-- A record of the derived list is identified by its metric type. -/
theorem performAnalysis_record (now : Nat → Time) (data : TrafficData) (r : AnalyticsResult)
    (hr : r ∈ analyticsProcessor.performAnalysis now data) :
    (r.MetricType = "congestion_index" →
      r = analyticsProcessor.calculateCongestionIndex (now 0) data) ∧
    (r.MetricType = "traffic_density" →
      r = analyticsProcessor.calculateTrafficDensity (now 1) data) ∧
    (r.MetricType = "flow_rate" → r = analyticsProcessor.calculateFlowRate (now 2) data) ∧
    (r.MetricType = "travel_time" → r = analyticsProcessor.calculateTravelTime (now 3) data) ∧
    (r.MetricType = "delay_index" → r = analyticsProcessor.calculateDelayIndex (now 4) data) := by
  rw [performAnalysis_eq] at hr
  simp only [List.mem_cons, List.mem_singleton, List.not_mem_nil, or_false] at hr
  have h0 := calculateCongestionIndex_MetricType (now 0) data
  have h1 : (analyticsProcessor.calculateTrafficDensity (now 1) data).MetricType =
      "traffic_density" := rfl
  have h2 : (analyticsProcessor.calculateFlowRate (now 2) data).MetricType = "flow_rate" := rfl
  have h3 : (analyticsProcessor.calculateTravelTime (now 3) data).MetricType =
      "travel_time" := rfl
  have h4 : (analyticsProcessor.calculateDelayIndex (now 4) data).MetricType =
      "delay_index" := rfl
  rcases hr with h | h | h | h | h
  · rw [h]
    refine ⟨fun _ => rfl, ?_, ?_, ?_, ?_⟩ <;> intro ht <;> rw [h0] at ht <;>
      exact absurd ht (by decide)
  · rw [h]
    refine ⟨?_, fun _ => rfl, ?_, ?_, ?_⟩ <;> intro ht <;> rw [h1] at ht <;>
      exact absurd ht (by decide)
  · rw [h]
    refine ⟨?_, ?_, fun _ => rfl, ?_, ?_⟩ <;> intro ht <;> rw [h2] at ht <;>
      exact absurd ht (by decide)
  · rw [h]
    refine ⟨?_, ?_, ?_, fun _ => rfl, ?_⟩ <;> intro ht <;> rw [h3] at ht <;>
      exact absurd ht (by decide)
  · rw [h]
    refine ⟨?_, ?_, ?_, ?_, fun _ => rfl⟩ <;> intro ht <;> rw [h4] at ht <;>
      exact absurd ht (by decide)

/-- The value written by the travel-time constructor. -/
theorem calculateTravelTime_Value (now : Time) (data : TrafficData) :
    (analyticsProcessor.calculateTravelTime now data).Value =
      (if data.AverageSpeed > 0 then (1 / data.AverageSpeed) * 60 else 60) := rfl

/-- The value written by the delay-index constructor, as a clamp. -/
theorem calculateDelayIndex_Value (now : Time) (data : TrafficData) :
    (analyticsProcessor.calculateDelayIndex now data).Value =
      (if data.AverageSpeed > 0 then min 1 (max 0 ((80 - data.AverageSpeed) / 80)) else 0) := by
  simp only [analyticsProcessor.calculateDelayIndex]
  by_cases hs : data.AverageSpeed > 0
  · have h80 : (80 : ℚ) > 0 := by norm_num
    rw [if_pos ⟨h80, hs⟩, if_pos hs]
    by_cases hn : (80 - data.AverageSpeed) / 80 < 0
    · rw [if_pos hn, max_eq_left (le_of_lt hn)]
      norm_num
    · rw [if_neg hn, max_eq_right (not_lt.mp hn)]
      by_cases h1 : (80 - data.AverageSpeed) / 80 > 1
      · rw [if_pos h1, min_eq_left (le_of_lt h1)]
      · rw [if_neg h1, min_eq_right (not_lt.mp h1)]
  · rw [if_neg (fun h => hs h.2), if_neg hs]

/-- The value written by the congestion-index constructor for a non-zero count. -/
theorem calculateCongestionIndex_Value_nonzero (now : Time) (data : TrafficData)
    (hcount : data.VehicleCount ≠ 0) :
    (analyticsProcessor.calculateCongestionIndex now data).Value =
      min 1 ((min 1 ((data.VehicleCount : ℚ) / 200) +
        (if data.AverageSpeed > 0 then max 0 ((80 - data.AverageSpeed) / 80) else 0)) / 2) := by
  simp only [analyticsProcessor.calculateCongestionIndex, hcount, if_false]
  have hmin : (if (data.VehicleCount : ℚ) / 200 > 1 then (1 : ℚ)
      else (data.VehicleCount : ℚ) / 200) = min 1 ((data.VehicleCount : ℚ) / 200) := by
    by_cases h1 : (data.VehicleCount : ℚ) / 200 > 1
    · rw [if_pos h1, min_eq_left (le_of_lt h1)]
    · rw [if_neg h1, min_eq_right (not_lt.mp h1)]
  have hspeed : (if data.AverageSpeed > 0 then
        (if (80 - data.AverageSpeed) / 80 < 0 then (0 : ℚ) else (80 - data.AverageSpeed) / 80)
      else 0) =
      (if data.AverageSpeed > 0 then max 0 ((80 - data.AverageSpeed) / 80) else 0) := by
    by_cases hs : data.AverageSpeed > 0
    · rw [if_pos hs, if_pos hs]
      by_cases hn : (80 - data.AverageSpeed) / 80 < 0
      · rw [if_pos hn, max_eq_left (le_of_lt hn)]
      · rw [if_neg hn, max_eq_right (not_lt.mp hn)]
    · rw [if_neg hs, if_neg hs]
  rw [hmin, hspeed]
  by_cases h1 : (min 1 ((data.VehicleCount : ℚ) / 200) +
      (if data.AverageSpeed > 0 then max 0 ((80 - data.AverageSpeed) / 80) else 0)) / 2 > 1
  · rw [if_pos h1, min_eq_left (le_of_lt h1)]
  · rw [if_neg h1, min_eq_right (not_lt.mp h1)]

/-- C12: for every reading with vehicleCount = 0, whatever its averageSpeed, the
congestion_index record (the one built by the constructor, which is the one of that metric
type in the list returned by `performAnalysis`) has value exactly 0 and confidence level
0.95. -/
theorem congestionIndex_zero_count_value (now : Nat → Time) (data : TrafficData)
    (hcount : data.VehicleCount = 0) :
    ((analyticsProcessor.calculateCongestionIndex (now 0) data).Value = 0 ∧
      (analyticsProcessor.calculateCongestionIndex (now 0) data).ConfidenceLevel =
        some (95 / 100)) ∧
    ∀ r ∈ analyticsProcessor.performAnalysis now data, r.MetricType = "congestion_index" →
      r.Value = 0 ∧ r.ConfidenceLevel = some (95 / 100) := by
  have h : (analyticsProcessor.calculateCongestionIndex (now 0) data).Value = 0 ∧
      (analyticsProcessor.calculateCongestionIndex (now 0) data).ConfidenceLevel =
        some (95 / 100) := by
    simp [analyticsProcessor.calculateCongestionIndex, hcount, Float64Ptr]
  refine ⟨h, ?_⟩
  intro r hr ht
  rw [(performAnalysis_record now data r hr).1 ht]
  exact h

/-- C12 at vehicleCount = 0 and averageSpeed = 80. -/
theorem congestionIndex_zero_count_value_witness :
    (analyticsProcessor.calculateCongestionIndex ⟨0⟩
      { Timestamp := ⟨1⟩, LocationID := "A", VehicleCount := 0, AverageSpeed := 80,
        CongestionLevel := "low" }).Value = 0 ∧
    (analyticsProcessor.calculateCongestionIndex ⟨0⟩
      { Timestamp := ⟨1⟩, LocationID := "A", VehicleCount := 0, AverageSpeed := 80,
        CongestionLevel := "low" }).ConfidenceLevel = some (95 / 100) :=
  (congestionIndex_zero_count_value (fun _ => ⟨0⟩)
    { Timestamp := ⟨1⟩, LocationID := "A", VehicleCount := 0, AverageSpeed := 80,
      CongestionLevel := "low" } rfl).1

/-- C13: for every reading with averageSpeed <= 0, the travel_time record has value 60 and
the delay_index record has value 0. -/
theorem nonpositive_speed_travel_delay (now : Nat → Time) (data : TrafficData)
    (hspeed : data.AverageSpeed ≤ 0) :
    ((analyticsProcessor.calculateTravelTime (now 3) data).Value = 60 ∧
      (analyticsProcessor.calculateDelayIndex (now 4) data).Value = 0) ∧
    ∀ r ∈ analyticsProcessor.performAnalysis now data,
      (r.MetricType = "travel_time" → r.Value = 60) ∧
      (r.MetricType = "delay_index" → r.Value = 0) := by
  have hs : ¬ data.AverageSpeed > 0 := not_lt.mpr hspeed
  have ht : (analyticsProcessor.calculateTravelTime (now 3) data).Value = 60 := by
    rw [calculateTravelTime_Value, if_neg hs]
  have hd : (analyticsProcessor.calculateDelayIndex (now 4) data).Value = 0 := by
    rw [calculateDelayIndex_Value, if_neg hs]
  refine ⟨⟨ht, hd⟩, ?_⟩
  intro r hr
  have hrec := performAnalysis_record now data r hr
  exact ⟨fun h => by rw [hrec.2.2.2.1 h]; exact ht, fun h => by rw [hrec.2.2.2.2 h]; exact hd⟩

/-- C13 at averageSpeed = 0. -/
theorem nonpositive_speed_travel_delay_witness :
    (analyticsProcessor.calculateTravelTime ⟨0⟩
      { Timestamp := ⟨1⟩, LocationID := "A", VehicleCount := 30, AverageSpeed := 0,
        CongestionLevel := "" }).Value = 60 ∧
    (analyticsProcessor.calculateDelayIndex ⟨0⟩
      { Timestamp := ⟨1⟩, LocationID := "A", VehicleCount := 30, AverageSpeed := 0,
        CongestionLevel := "" }).Value = 0 :=
  (nonpositive_speed_travel_delay (fun _ => ⟨0⟩)
    { Timestamp := ⟨1⟩, LocationID := "A", VehicleCount := 30, AverageSpeed := 0,
      CongestionLevel := "" } (le_refl 0)).1

/-- C14: for every reading with vehicleCount >= 200 and averageSpeed not greater than 0, the
count term is clamped to 1 and the speed term is 0, so the congestion_index record has value
exactly 1/2, the travel_time record has value 60 and the delay_index record has value 0. -/
theorem saturated_count_nonpositive_speed (now : Nat → Time) (data : TrafficData)
    (hcount : 200 ≤ data.VehicleCount) (hspeed : ¬ data.AverageSpeed > 0) :
    ((analyticsProcessor.calculateCongestionIndex (now 0) data).Value = 1 / 2 ∧
      (analyticsProcessor.calculateTravelTime (now 3) data).Value = 60 ∧
      (analyticsProcessor.calculateDelayIndex (now 4) data).Value = 0) ∧
    ∀ r ∈ analyticsProcessor.performAnalysis now data,
      (r.MetricType = "congestion_index" → r.Value = 1 / 2) ∧
      (r.MetricType = "travel_time" → r.Value = 60) ∧
      (r.MetricType = "delay_index" → r.Value = 0) := by
  have hne : data.VehicleCount ≠ 0 := by omega
  have hq : (200 : ℚ) ≤ (data.VehicleCount : ℚ) := by exact_mod_cast hcount
  have hge : (1 : ℚ) ≤ (data.VehicleCount : ℚ) / 200 := by
    rw [le_div_iff₀ (by norm_num : (0 : ℚ) < 200)]
    linarith
  have hc : (analyticsProcessor.calculateCongestionIndex (now 0) data).Value = 1 / 2 := by
    rw [calculateCongestionIndex_Value_nonzero _ _ hne, if_neg hspeed, min_eq_left hge]
    norm_num
  have ht : (analyticsProcessor.calculateTravelTime (now 3) data).Value = 60 := by
    rw [calculateTravelTime_Value, if_neg hspeed]
  have hd : (analyticsProcessor.calculateDelayIndex (now 4) data).Value = 0 := by
    rw [calculateDelayIndex_Value, if_neg hspeed]
  refine ⟨⟨hc, ht, hd⟩, ?_⟩
  intro r hr
  have hrec := performAnalysis_record now data r hr
  exact ⟨fun h => by rw [hrec.1 h]; exact hc, fun h => by rw [hrec.2.2.2.1 h]; exact ht,
    fun h => by rw [hrec.2.2.2.2 h]; exact hd⟩

/-- C14 at vehicleCount = 250 and averageSpeed = 0. -/
theorem saturated_count_nonpositive_speed_witness :
    (analyticsProcessor.calculateCongestionIndex ⟨0⟩
      { Timestamp := ⟨1⟩, LocationID := "A", VehicleCount := 250, AverageSpeed := 0,
        CongestionLevel := "" }).Value = 1 / 2 ∧
    (analyticsProcessor.calculateTravelTime ⟨0⟩
      { Timestamp := ⟨1⟩, LocationID := "A", VehicleCount := 250, AverageSpeed := 0,
        CongestionLevel := "" }).Value = 60 ∧
    (analyticsProcessor.calculateDelayIndex ⟨0⟩
      { Timestamp := ⟨1⟩, LocationID := "A", VehicleCount := 250, AverageSpeed := 0,
        CongestionLevel := "" }).Value = 0 :=
  (saturated_count_nonpositive_speed (fun _ => ⟨0⟩)
    { Timestamp := ⟨1⟩, LocationID := "A", VehicleCount := 250, AverageSpeed := 0,
      CongestionLevel := "" } (by decide) (by decide)).1

/-- C15: for every reading, the delay_index record has value `(80 - averageSpeed)/80` clamped
to [0,1] when averageSpeed > 0, and 0 otherwise (exact arithmetic); averageSpeed = 40 gives
1/2 and every averageSpeed >= 80 gives 0. -/
theorem delayIndex_value (now : Nat → Time) (data : TrafficData) :
    (∀ r ∈ analyticsProcessor.performAnalysis now data, r.MetricType = "delay_index" →
      r.Value =
        (if data.AverageSpeed > 0 then min 1 (max 0 ((80 - data.AverageSpeed) / 80)) else 0)) ∧
    (data.AverageSpeed = 40 →
      (analyticsProcessor.calculateDelayIndex (now 4) data).Value = 1 / 2) ∧
    (80 ≤ data.AverageSpeed →
      (analyticsProcessor.calculateDelayIndex (now 4) data).Value = 0) := by
  refine ⟨?_, ?_, ?_⟩
  · intro r hr ht
    rw [(performAnalysis_record now data r hr).2.2.2.2 ht, calculateDelayIndex_Value]
  · intro h
    rw [calculateDelayIndex_Value, h]
    norm_num
  · intro h
    have hpos : data.AverageSpeed > 0 := by linarith
    have hle : (80 - data.AverageSpeed) / 80 ≤ 0 :=
      div_nonpos_of_nonpos_of_nonneg (by linarith) (by norm_num)
    rw [calculateDelayIndex_Value, if_pos hpos, max_eq_left hle]
    norm_num

/-- C16: for every reading, the three unclamped metrics equal their table formulas (exact
arithmetic): the traffic_density record has value vehicleCount, the flow_rate record has value
12 * vehicleCount, and the travel_time record has value 60 / averageSpeed whenever
averageSpeed > 0; vehicleCount = 100 and averageSpeed = 40 give 100, 1200 and 3/2. -/
theorem unclamped_metric_values (now : Nat → Time) (data : TrafficData) :
    (∀ r ∈ analyticsProcessor.performAnalysis now data,
      (r.MetricType = "traffic_density" → r.Value = (data.VehicleCount : ℚ)) ∧
      (r.MetricType = "flow_rate" → r.Value = 12 * (data.VehicleCount : ℚ)) ∧
      (r.MetricType = "travel_time" → data.AverageSpeed > 0 →
        r.Value = 60 / data.AverageSpeed)) ∧
    (data.VehicleCount = 100 → data.AverageSpeed = 40 →
      (analyticsProcessor.calculateTrafficDensity (now 1) data).Value = 100 ∧
      (analyticsProcessor.calculateFlowRate (now 2) data).Value = 1200 ∧
      (analyticsProcessor.calculateTravelTime (now 3) data).Value = 3 / 2) := by
  have hd : (analyticsProcessor.calculateTrafficDensity (now 1) data).Value =
      (data.VehicleCount : ℚ) := by
    simp [analyticsProcessor.calculateTrafficDensity]
  have hf : (analyticsProcessor.calculateFlowRate (now 2) data).Value =
      12 * (data.VehicleCount : ℚ) := by
    simp only [analyticsProcessor.calculateFlowRate]
    ring
  have ht : data.AverageSpeed > 0 →
      (analyticsProcessor.calculateTravelTime (now 3) data).Value = 60 / data.AverageSpeed := by
    intro hs
    rw [calculateTravelTime_Value, if_pos hs]
    ring
  refine ⟨?_, ?_⟩
  · intro r hr
    have hrec := performAnalysis_record now data r hr
    exact ⟨fun h => by rw [hrec.2.1 h]; exact hd, fun h => by rw [hrec.2.2.1 h]; exact hf,
      fun h hs => by rw [hrec.2.2.2.1 h]; exact ht hs⟩
  · intro hc hs
    refine ⟨?_, ?_, ?_⟩
    · rw [hd, hc]; norm_num
    · rw [hf, hc]; norm_num
    · rw [ht (by rw [hs]; norm_num), hs]; norm_num

/-- C17: for every reading with vehicleCount >= 0, hence for every reading that passes
validation (vehicleCount >= 0, averageSpeed >= 0), the congestion_index value and the
delay_index value both lie in the closed interval [0,1]. -/
theorem index_values_in_unit_interval (now : Nat → Time) (data : TrafficData)
    (hcount : 0 ≤ data.VehicleCount) :
    ((0 ≤ (analyticsProcessor.calculateCongestionIndex (now 0) data).Value ∧
        (analyticsProcessor.calculateCongestionIndex (now 0) data).Value ≤ 1) ∧
      (0 ≤ (analyticsProcessor.calculateDelayIndex (now 4) data).Value ∧
        (analyticsProcessor.calculateDelayIndex (now 4) data).Value ≤ 1)) ∧
    ∀ r ∈ analyticsProcessor.performAnalysis now data,
      (r.MetricType = "congestion_index" → 0 ≤ r.Value ∧ r.Value ≤ 1) ∧
      (r.MetricType = "delay_index" → 0 ≤ r.Value ∧ r.Value ≤ 1) := by
  have hterm : (0 : ℚ) ≤
      (if data.AverageSpeed > 0 then max 0 ((80 - data.AverageSpeed) / 80) else 0) := by
    by_cases hs : data.AverageSpeed > 0
    · rw [if_pos hs]; exact le_max_left _ _
    · rw [if_neg hs]
  have hc : 0 ≤ (analyticsProcessor.calculateCongestionIndex (now 0) data).Value ∧
      (analyticsProcessor.calculateCongestionIndex (now 0) data).Value ≤ 1 := by
    by_cases h0 : data.VehicleCount = 0
    · have hv : (analyticsProcessor.calculateCongestionIndex (now 0) data).Value = 0 := by
        simp [analyticsProcessor.calculateCongestionIndex, h0]
      rw [hv]
      exact ⟨le_refl 0, by norm_num⟩
    · rw [calculateCongestionIndex_Value_nonzero _ _ h0]
      have hq : (0 : ℚ) ≤ (data.VehicleCount : ℚ) := by exact_mod_cast hcount
      have hn : (0 : ℚ) ≤ min 1 ((data.VehicleCount : ℚ) / 200) :=
        le_min (by norm_num) (div_nonneg hq (by norm_num))
      exact ⟨le_min (by norm_num) (div_nonneg (add_nonneg hn hterm) (by norm_num)),
        min_le_left _ _⟩
  have hd : 0 ≤ (analyticsProcessor.calculateDelayIndex (now 4) data).Value ∧
      (analyticsProcessor.calculateDelayIndex (now 4) data).Value ≤ 1 := by
    rw [calculateDelayIndex_Value]
    by_cases hs : data.AverageSpeed > 0
    · rw [if_pos hs]
      exact ⟨le_min (by norm_num) (le_max_left _ _), min_le_left _ _⟩
    · rw [if_neg hs]
      exact ⟨le_refl 0, by norm_num⟩
  refine ⟨⟨hc, hd⟩, ?_⟩
  intro r hr
  have hrec := performAnalysis_record now data r hr
  exact ⟨fun h => by rw [hrec.1 h]; exact hc, fun h => by rw [hrec.2.2.2.2 h]; exact hd⟩

/-- C17 at vehicleCount = 500 and averageSpeed = 1: both values lie in [0,1]. -/
theorem index_values_in_unit_interval_witness :
    (0 ≤ (analyticsProcessor.calculateCongestionIndex ⟨0⟩
        { Timestamp := ⟨1⟩, LocationID := "A", VehicleCount := 500, AverageSpeed := 1,
          CongestionLevel := "" }).Value ∧
      (analyticsProcessor.calculateCongestionIndex ⟨0⟩
        { Timestamp := ⟨1⟩, LocationID := "A", VehicleCount := 500, AverageSpeed := 1,
          CongestionLevel := "" }).Value ≤ 1) ∧
    (0 ≤ (analyticsProcessor.calculateDelayIndex ⟨0⟩
        { Timestamp := ⟨1⟩, LocationID := "A", VehicleCount := 500, AverageSpeed := 1,
          CongestionLevel := "" }).Value ∧
      (analyticsProcessor.calculateDelayIndex ⟨0⟩
        { Timestamp := ⟨1⟩, LocationID := "A", VehicleCount := 500, AverageSpeed := 1,
          CongestionLevel := "" }).Value ≤ 1) :=
  (index_values_in_unit_interval (fun _ => ⟨0⟩)
    { Timestamp := ⟨1⟩, LocationID := "A", VehicleCount := 500, AverageSpeed := 1,
      CongestionLevel := "" } (by decide)).1

/-- C18: for every reading, the traffic_density, flow_rate, travel_time and delay_index records
returned by `performAnalysis` have an empty trend; a record of the list with a non-empty trend
is the congestion_index record. -/
theorem trend_only_on_congestion_index (now : Nat → Time) (data : TrafficData) :
    ∀ r ∈ analyticsProcessor.performAnalysis now data,
      (r.MetricType = "traffic_density" → r.Trend = "") ∧
      (r.MetricType = "flow_rate" → r.Trend = "") ∧
      (r.MetricType = "travel_time" → r.Trend = "") ∧
      (r.MetricType = "delay_index" → r.Trend = "") ∧
      (r.Trend ≠ "" → r.MetricType = "congestion_index") := by
  intro r hr
  have hrec := performAnalysis_record now data r hr
  refine ⟨fun h => by rw [hrec.2.1 h]; rfl, fun h => by rw [hrec.2.2.1 h]; rfl,
    fun h => by rw [hrec.2.2.2.1 h]; rfl, fun h => by rw [hrec.2.2.2.2 h]; rfl, ?_⟩
  intro hne
  rw [performAnalysis_eq] at hr
  simp only [List.mem_cons, List.mem_singleton, List.not_mem_nil, or_false] at hr
  rcases hr with h | h | h | h | h
  · rw [h]; exact calculateCongestionIndex_MetricType _ _
  all_goals exact absurd (by rw [h]; rfl) hne

/-- C18 at a concrete reading: the flow_rate record of the derived list has an empty trend,
also for a reading whose congestion_index record carries the trend "stable". -/
theorem trend_only_on_congestion_index_witness :
    (analyticsProcessor.calculateFlowRate ⟨0⟩
      { Timestamp := ⟨1⟩, LocationID := "A", VehicleCount := 100, AverageSpeed := 40,
        CongestionLevel := "low" }).Trend = "" :=
  (trend_only_on_congestion_index (fun _ => ⟨0⟩)
    { Timestamp := ⟨1⟩, LocationID := "A", VehicleCount := 100, AverageSpeed := 40,
      CongestionLevel := "low" }
    (analyticsProcessor.calculateFlowRate ⟨0⟩
      { Timestamp := ⟨1⟩, LocationID := "A", VehicleCount := 100, AverageSpeed := 40,
        CongestionLevel := "low" })
    (by rw [performAnalysis_eq]; simp)).2.1 rfl

/-- C19: for every reading, the records returned by `performAnalysis` carry, in order, the
metric type, the unit and the confidence level fixed for the type, whatever the reading:
congestion_index (index, 0.95), traffic_density (vehicles/km, 0.90), flow_rate
(vehicles/hour, 0.85), travel_time (minutes, 0.80), delay_index (index, 0.85); the location of
every record is the location of the reading; and every confidence level is present and lies
in [0,1]. -/
theorem units_confidence_location (now : Nat → Time) (data : TrafficData) :
    (analyticsProcessor.performAnalysis now data).map
        (fun r => (r.MetricType, r.Unit, r.ConfidenceLevel, r.LocationID)) =
      [("congestion_index", "index", some (95 / 100), some data.LocationID),
       ("traffic_density", "vehicles/km", some (90 / 100), some data.LocationID),
       ("flow_rate", "vehicles/hour", some (85 / 100), some data.LocationID),
       ("travel_time", "minutes", some (80 / 100), some data.LocationID),
       ("delay_index", "index", some (85 / 100), some data.LocationID)] ∧
    ∀ r ∈ analyticsProcessor.performAnalysis now data,
      ∃ c : ℚ, r.ConfidenceLevel = some c ∧ 0 ≤ c ∧ c ≤ 1 := by
  have h0 : (analyticsProcessor.calculateCongestionIndex (now 0) data).Unit = "index" ∧
      (analyticsProcessor.calculateCongestionIndex (now 0) data).ConfidenceLevel =
        some (95 / 100) ∧
      (analyticsProcessor.calculateCongestionIndex (now 0) data).LocationID =
        some data.LocationID := by
    unfold analyticsProcessor.calculateCongestionIndex
    by_cases h : data.VehicleCount = 0 <;> simp [h, UnitIndex, Float64Ptr]
  constructor
  · rw [performAnalysis_eq]
    simp only [List.map_cons, List.map_nil, calculateCongestionIndex_MetricType, h0.1, h0.2.1,
      h0.2.2]
    rfl
  · intro r hr
    rw [performAnalysis_eq] at hr
    simp only [List.mem_cons, List.mem_singleton, List.not_mem_nil, or_false] at hr
    rcases hr with h | h | h | h | h
    · exact ⟨95 / 100, by rw [h]; exact h0.2.1, by norm_num, by norm_num⟩
    · exact ⟨90 / 100, by rw [h]; rfl, by norm_num, by norm_num⟩
    · exact ⟨85 / 100, by rw [h]; rfl, by norm_num, by norm_num⟩
    · exact ⟨80 / 100, by rw [h]; rfl, by norm_num, by norm_num⟩
    · exact ⟨85 / 100, by rw [h]; rfl, by norm_num, by norm_num⟩

/-! ### Persisting the derived records -/

/-- When no insert fails, the persist loop appends every record, in order. -/
theorem storeResults_all_ok (env : Env) (results : List AnalyticsResult) (w : World)
    (hall : ∀ i, i < results.length → env.storeErr (w.storeCalls + i) = none) :
    analyticsProcessor.storeResults env results w =
      (none, { w with rows := w.rows ++ results,
                      storeCalls := w.storeCalls + results.length,
                      ticks := w.ticks + results.length }) := by
  induction results generalizing w with
  | nil => simp [analyticsProcessor.storeResults]
  | cons r rest ih =>
    have h0 : env.storeErr w.storeCalls = none := by
      have := hall 0 (by simp)
      simpa using this
    simp only [analyticsProcessor.storeResults, Repository.StoreAnalyticsResult,
      TrafficDataRepository.CreateAnalyticsResult, h0]
    rw [ih]
    · simp only [List.length_cons, List.append_assoc, List.singleton_append, Prod.mk.injEq,
        true_and, World.mk.injEq, and_true]
      omega
    · intro i hi
      have := hall (i + 1) (by simpa using hi)
      have e1 : w.storeCalls + (i + 1) = w.storeCalls + 1 + i := by omega
      rw [e1] at this
      exact this

/-- When the insert number `k` (counted from 0) is the first to fail, the persist loop
returns its error, wrapped, having appended the first `k` records and issued `k + 1`
inserts: the records after the failing one are not attempted. -/
theorem storeResults_first_failure (env : Env) (results : List AnalyticsResult) (w : World)
    (k : Nat) (e : Err) (hk : k < results.length)
    (hbefore : ∀ i, i < k → env.storeErr (w.storeCalls + i) = none)
    (hfail : env.storeErr (w.storeCalls + k) = some e) :
    analyticsProcessor.storeResults env results w =
      (some (.wrap "failed to store analytics result" e),
       { w with rows := w.rows ++ results.take k,
                storeCalls := w.storeCalls + (k + 1),
                ticks := w.ticks + (k + 1) }) := by
  induction results generalizing w k with
  | nil => simp at hk
  | cons r rest ih =>
    cases k with
    | zero =>
      have h0 : env.storeErr w.storeCalls = some e := by simpa using hfail
      simp [analyticsProcessor.storeResults, Repository.StoreAnalyticsResult,
        TrafficDataRepository.CreateAnalyticsResult, h0]
    | succ j =>
      have h0 : env.storeErr w.storeCalls = none := by
        have := hbefore 0 (Nat.succ_pos _)
        simpa using this
      simp only [analyticsProcessor.storeResults, Repository.StoreAnalyticsResult,
        TrafficDataRepository.CreateAnalyticsResult, h0]
      rw [ih _ j (by simpa using hk)]
      · simp only [List.take_succ_cons, List.append_assoc, List.singleton_append,
          Prod.mk.injEq, true_and, World.mk.injEq, and_true]
        omega
      · intro i hi
        have := hbefore (i + 1) (Nat.succ_lt_succ hi)
        have e1 : w.storeCalls + (i + 1) = w.storeCalls + 1 + i := by omega
        rw [e1] at this
        exact this
      · have e1 : w.storeCalls + (j + 1) = w.storeCalls + 1 + j := by omega
        rw [e1] at hfail
        exact hfail

/-- C20: `analyticsProcessor.ProcessTrafficData` persists exactly a prefix of the derived
list. When validation fails it returns the failure, wrapped, and the world is unchanged, so
nothing is persisted. When validation passes: if the insert number `k` (counted from 0, so
the `k+1`-th) is the first to fail, the call returns that error, wrapped, the first `k`
records are in the table (no rollback) and `k + 1` inserts were issued, so the remaining
records are not attempted; if no insert fails the call returns no error with all 5 records
appended; and it returns no error only if all 5 inserts succeeded. -/
theorem ProcessTrafficData_persists_initial_segment (env : Env) (data : Option TrafficData)
    (w : World) :
    (∀ e, analyticsProcessor.validateTrafficData data = some e →
      analyticsProcessor.ProcessTrafficData env data w =
        (some (.wrap "invalid traffic data" e), w)) ∧
    (∀ d, data = some d → analyticsProcessor.validateTrafficData data = none →
      (∀ k e, k < 5 → (∀ i, i < k → env.storeErr (w.storeCalls + i) = none) →
        env.storeErr (w.storeCalls + k) = some e →
        (analyticsProcessor.ProcessTrafficData env data w).1 =
          some (.wrap "failed to store analytics result" e) ∧
        (analyticsProcessor.ProcessTrafficData env data w).2.rows =
          w.rows ++
            (analyticsProcessor.performAnalysis (fun i => env.clock (w.ticks + i)) d).take k ∧
        (analyticsProcessor.ProcessTrafficData env data w).2.storeCalls =
          w.storeCalls + (k + 1)) ∧
      ((∀ i, i < 5 → env.storeErr (w.storeCalls + i) = none) →
        (analyticsProcessor.ProcessTrafficData env data w).1 = none ∧
        (analyticsProcessor.ProcessTrafficData env data w).2.rows =
          w.rows ++ analyticsProcessor.performAnalysis (fun i => env.clock (w.ticks + i)) d ∧
        (analyticsProcessor.ProcessTrafficData env data w).2.storeCalls = w.storeCalls + 5) ∧
      ((analyticsProcessor.ProcessTrafficData env data w).1 = none →
        ∀ i, i < 5 → env.storeErr (w.storeCalls + i) = none)) := by
  constructor
  · intro e he
    simp [analyticsProcessor.ProcessTrafficData, he]
  · intro d hd hv
    subst hd
    have hlen := performAnalysis_length (fun i => env.clock (w.ticks + i)) d
    simp only [analyticsProcessor.ProcessTrafficData, hv]
    refine ⟨?_, ?_, ?_⟩
    · intro k e hk hbefore hfail
      rw [storeResults_first_failure env _ { w with ticks := w.ticks + 5 } k e
        (by rw [hlen]; exact hk) hbefore hfail]
      exact ⟨rfl, rfl, rfl⟩
    · intro hall
      rw [storeResults_all_ok env _ { w with ticks := w.ticks + 5 }
        (by rw [hlen]; exact hall)]
      refine ⟨rfl, rfl, ?_⟩
      show w.storeCalls + _ = _
      rw [hlen]
    · intro hnone
      have h := (storeResults_none_iff env
        (analyticsProcessor.performAnalysis (fun i => env.clock (w.ticks + i)) d)
        { w with ticks := w.ticks + 5 }).mp hnone
      rw [hlen] at h
      exact h

/-- C20 at a concrete run: the reading is valid, the first insert succeeds and the second
fails, so exactly the first derived record is in the table and two inserts were issued. -/
theorem ProcessTrafficData_persists_initial_segment_witness :
    (analyticsProcessor.ProcessTrafficData
      { unmarshal := fun _ => .error (.backend "unused")
        fetch := fun _ => .error (.backend "unused")
        storeErr := fun n => if n = 1 then some (.backend "db down") else none
        commitErr := fun _ => none
        clock := fun n => ⟨n⟩ }
      (some { Timestamp := ⟨1⟩, LocationID := "A", VehicleCount := 100, AverageSpeed := 40,
              CongestionLevel := "low" })
      ⟨0, 0, [], 0, [], 0, 0, 0, []⟩).1 =
      some (.wrap "failed to store analytics result" (.backend "db down")) ∧
    (analyticsProcessor.ProcessTrafficData
      { unmarshal := fun _ => .error (.backend "unused")
        fetch := fun _ => .error (.backend "unused")
        storeErr := fun n => if n = 1 then some (.backend "db down") else none
        commitErr := fun _ => none
        clock := fun n => ⟨n⟩ }
      (some { Timestamp := ⟨1⟩, LocationID := "A", VehicleCount := 100, AverageSpeed := 40,
              CongestionLevel := "low" })
      ⟨0, 0, [], 0, [], 0, 0, 0, []⟩).2.rows =
      [] ++ (analyticsProcessor.performAnalysis (fun i => ⟨((0 + i : Nat) : Int)⟩)
        { Timestamp := ⟨1⟩, LocationID := "A", VehicleCount := 100, AverageSpeed := 40,
          CongestionLevel := "low" }).take 1 ∧
    (analyticsProcessor.ProcessTrafficData
      { unmarshal := fun _ => .error (.backend "unused")
        fetch := fun _ => .error (.backend "unused")
        storeErr := fun n => if n = 1 then some (.backend "db down") else none
        commitErr := fun _ => none
        clock := fun n => ⟨n⟩ }
      (some { Timestamp := ⟨1⟩, LocationID := "A", VehicleCount := 100, AverageSpeed := 40,
              CongestionLevel := "low" })
      ⟨0, 0, [], 0, [], 0, 0, 0, []⟩).2.storeCalls = 0 + (1 + 1) :=
  ((ProcessTrafficData_persists_initial_segment
      { unmarshal := fun _ => .error (.backend "unused")
        fetch := fun _ => .error (.backend "unused")
        storeErr := fun n => if n = 1 then some (.backend "db down") else none
        commitErr := fun _ => none
        clock := fun n => ⟨n⟩ }
      (some { Timestamp := ⟨1⟩, LocationID := "A", VehicleCount := 100, AverageSpeed := 40,
              CongestionLevel := "low" })
      ⟨0, 0, [], 0, [], 0, 0, 0, []⟩).2
    { Timestamp := ⟨1⟩, LocationID := "A", VehicleCount := 100, AverageSpeed := 40,
      CongestionLevel := "low" } rfl
    (by simp [analyticsProcessor.validateTrafficData, validLevels, CongestionLow,
          Time.IsZero])).1
    1 (.backend "db down") (by decide)
    (fun i hi => by
      have h0 : i = 0 := by omega
      subst h0
      rfl)
    rfl

/-! ### Ingestion flow -/

/-- C11: in `Service.ProcessTrafficData` the log append is attempted only if
`Repository.StoreTrafficData` returned no error. When the store fails, its error is returned,
no append is attempted and the world is as the store left it. When the store succeeds,
exactly one append is attempted, with the serialized reading, and its result is the result of
the call; so the call returns no error if and only if the store and then the append both
succeed. In every case the readings table and the cache are exactly as the store left them:
the completed writes are not undone. -/
theorem ProcessTrafficData_ingestion_flow (env : IngestEnv) (d : TrafficData)
    (w : IngestWorld) :
    (Repository.StoreTrafficData env d w).2.2.writeCalls = w.writeCalls ∧
    (∀ e, (Repository.StoreTrafficData env d w).1 = some e →
      Service.ProcessTrafficData env d w = (some e, (Repository.StoreTrafficData env d w).2.2)) ∧
    ((Repository.StoreTrafficData env d w).1 = none →
      ∃ msg, env.marshal (Repository.StoreTrafficData env d w).2.1 = .ok msg ∧
        (Service.ProcessTrafficData env d w).2.writeCalls = w.writeCalls ++ [msg] ∧
        (Service.ProcessTrafficData env d w).1 = env.writeErr w.writeCalls.length) ∧
    ((Service.ProcessTrafficData env d w).2.writeCalls ≠ w.writeCalls →
      (Repository.StoreTrafficData env d w).1 = none) ∧
    ((Service.ProcessTrafficData env d w).1 = none ↔
      ((Repository.StoreTrafficData env d w).1 = none ∧
        env.writeErr w.writeCalls.length = none)) ∧
    ((Service.ProcessTrafficData env d w).2.table =
        (Repository.StoreTrafficData env d w).2.2.table ∧
      (Service.ProcessTrafficData env d w).2.cache =
        (Repository.StoreTrafficData env d w).2.2.cache ∧
      (Service.ProcessTrafficData env d w).2.setCalls =
        (Repository.StoreTrafficData env d w).2.2.setCalls) := by
  simp only [Service.ProcessTrafficData, Repository.StoreTrafficData,
    TrafficDataRepository.Create, CacheRepository.SetCache, Producer.WriteMessages]
  generalize env.gormCreate w.createCalls d = r
  obtain ⟨d1, cerr⟩ := r
  cases cerr with
  | some e1 => simp
  | none =>
    simp only []
    cases hm : env.marshal d1 with
    | error e2 => simp
    | ok val =>
      simp only []
      cases hs : env.setErr w.setCalls.length with
      | some e3 => simp
      | none =>
        simp only [hm]
        cases hw : env.writeErr w.writeCalls.length with
        | some e4 => simp
        | none => simp

/-- C11 at a concrete run: the store succeeds and the log append fails; the call returns
the error of the append. -/
theorem ProcessTrafficData_ingestion_flow_witness :
    (Service.ProcessTrafficData
      { bind := fun _ => .error (.backend "no body")
        gormCreate := fun _ d => (d, none)
        marshal := fun _ => .ok "json"
        setErr := fun _ => none
        writeErr := fun _ => some (.backend "broker down") }
      { Timestamp := ⟨1⟩, LocationID := "A", VehicleCount := 100, AverageSpeed := 40,
        CongestionLevel := "low" }
      ⟨[], 0, [], [], [], []⟩).1 = some (.backend "broker down") :=
  match (ProcessTrafficData_ingestion_flow
      { bind := fun _ => .error (.backend "no body")
        gormCreate := fun _ d => (d, none)
        marshal := fun _ => .ok "json"
        setErr := fun _ => none
        writeErr := fun _ => some (.backend "broker down") }
      { Timestamp := ⟨1⟩, LocationID := "A", VehicleCount := 100, AverageSpeed := 40,
        CongestionLevel := "low" }
      ⟨[], 0, [], [], [], []⟩).2.2.1 rfl with
  | ⟨_, _, _, h⟩ => h

/-- The run of the C11 example, evaluated: after the failed append the row and the cache
entry written by the store are in place and the log is empty. -/
theorem ingestion_flow_append_failure_run :
    Service.ProcessTrafficData
      { bind := fun _ => .error (.backend "no body")
        gormCreate := fun _ d => (d, none)
        marshal := fun _ => .ok "json"
        setErr := fun _ => none
        writeErr := fun _ => some (.backend "broker down") }
      { Timestamp := ⟨1⟩, LocationID := "A", VehicleCount := 100, AverageSpeed := 40,
        CongestionLevel := "low" }
      ⟨[], 0, [], [], [], []⟩ =
      (some (.backend "broker down"),
       ⟨[{ Timestamp := ⟨1⟩, LocationID := "A", VehicleCount := 100, AverageSpeed := 40,
           CongestionLevel := "low" }], 1,
        [⟨"latest_traffic:A", "json", 0⟩], [⟨"latest_traffic:A", "json", 0⟩],
        [], ["json"]⟩) := by
  simp [Service.ProcessTrafficData, Repository.StoreTrafficData,
    TrafficDataRepository.Create, CacheRepository.SetCache, Producer.WriteMessages]

/-! ### One iteration of the consumption loop -/

/-- An iteration whose fetch fails returns the fetch error and touches nothing but the
fetch count and the event count. -/
theorem processNextMessage_fetch_error (env : Env) (w : World) (e : Err)
    (hfetch : env.fetch w.fetchCalls = .error e) :
    AnalyticsService.processNextMessage env w =
      (some e, { w with fetchCalls := w.fetchCalls + 1, ticks := w.ticks + 1 }) := by
  simp [AnalyticsService.processNextMessage, Consumer.FetchMessage, hfetch]

/-- An iteration whose message handling fails returns that error after one more clock
reading and one increment of the failure counter. -/
theorem processNextMessage_handled_error (env : Env) (w : World) (msg : Message) (e : Err)
    (w3 : World) (hfetch : env.fetch w.fetchCalls = .ok msg)
    (hhandled : MessageHandler.HandleMessage env msg.Value
      { w with fetchCalls := w.fetchCalls + 1, ticks := w.ticks + 1 + 1 } = (some e, w3)) :
    AnalyticsService.processNextMessage env w =
      (some e, { w3 with ticks := w3.ticks + 1, messagesFailed := w3.messagesFailed + 1 }) := by
  simp [AnalyticsService.processNextMessage, Consumer.FetchMessage, hfetch, timeNow,
    timeSince, Metrics.IncrementFailed, hhandled]

/-- An iteration whose message handling succeeds counts the message as processed, records
the time between the clock reading that follows the fetch and the clock reading that
follows the handling, calls the commit once, and returns no error whatever the commit
returns. -/
theorem processNextMessage_handled_ok (env : Env) (w : World) (msg : Message) (w3 : World)
    (hfetch : env.fetch w.fetchCalls = .ok msg)
    (hhandled : MessageHandler.HandleMessage env msg.Value
      { w with fetchCalls := w.fetchCalls + 1, ticks := w.ticks + 1 + 1 } = (none, w3)) :
    AnalyticsService.processNextMessage env w =
      (none,
       (Consumer.CommitMessages env msg
        { w3 with ticks := w3.ticks + 1,
                  messagesProcessed := w3.messagesProcessed + 1,
                  processingTime := w3.processingTime ++
                    [(env.clock w3.ticks).Sub (env.clock (w.ticks + 1))] }).2) := by
  simp [AnalyticsService.processNextMessage, Consumer.FetchMessage, hfetch, timeNow,
    timeSince, Metrics.IncrementProcessed, Metrics.RecordProcessingTime, hhandled]

/-- C21: in an iteration of `processNextMessage` whose fetch returns a message, exactly one of
the counters processed and failed is incremented, by exactly one: processed when message
handling returned no error, failed when it returned an error, the other counter being
unchanged; and when the fetch itself fails neither counter changes. -/
theorem processNextMessage_counters (env : Env) (w : World) :
    (∀ msg, env.fetch w.fetchCalls = .ok msg →
      ((MessageHandler.HandleMessage env msg.Value
          { w with fetchCalls := w.fetchCalls + 1, ticks := w.ticks + 1 + 1 }).1 = none →
        (AnalyticsService.processNextMessage env w).2.messagesProcessed =
          w.messagesProcessed + 1 ∧
        (AnalyticsService.processNextMessage env w).2.messagesFailed = w.messagesFailed) ∧
      ((MessageHandler.HandleMessage env msg.Value
          { w with fetchCalls := w.fetchCalls + 1, ticks := w.ticks + 1 + 1 }).1 ≠ none →
        (AnalyticsService.processNextMessage env w).2.messagesFailed = w.messagesFailed + 1 ∧
        (AnalyticsService.processNextMessage env w).2.messagesProcessed =
          w.messagesProcessed)) ∧
    (∀ e, env.fetch w.fetchCalls = .error e →
      (AnalyticsService.processNextMessage env w).2.messagesProcessed = w.messagesProcessed ∧
      (AnalyticsService.processNextMessage env w).2.messagesFailed = w.messagesFailed) := by
  constructor
  · intro msg hfetch
    have hframe := HandleMessage_frame env msg.Value
      { w with fetchCalls := w.fetchCalls + 1, ticks := w.ticks + 1 + 1 }
    cases hh : MessageHandler.HandleMessage env msg.Value
      { w with fetchCalls := w.fetchCalls + 1, ticks := w.ticks + 1 + 1 } with
    | mk err w3 =>
      rw [hh] at hframe
      obtain ⟨-, -, -, hp, hf, -⟩ := hframe
      simp only at hp hf
      cases err with
      | some e =>
        rw [processNextMessage_handled_error env w msg e w3 hfetch hh]
        simp [hp, hf]
      | none =>
        rw [processNextMessage_handled_ok env w msg w3 hfetch hh]
        simp only [Consumer.CommitMessages]
        cases env.commitErr w3.commitCalls.length <;> simp [hp, hf]
  · intro e hfetch
    rw [processNextMessage_fetch_error env w e hfetch]
    exact ⟨rfl, rfl⟩

/-- C22: when the handling of a fetched message succeeds and the commit call fails,
`processNextMessage` has made exactly one commit attempt, for that message, and returns no
error; the message is counted as processed and not as failed, the committed position is
unchanged, and the loop goes on to its next iteration without calling `time.Sleep`. -/
theorem processNextMessage_commit_failure (env : Env) (w : World) (msg : Message)
    (e : Err) (hfetch : env.fetch w.fetchCalls = .ok msg)
    (hhandled : (MessageHandler.HandleMessage env msg.Value
      { w with fetchCalls := w.fetchCalls + 1, ticks := w.ticks + 1 + 1 }).1 = none)
    (hcommit : env.commitErr w.commitCalls.length = some e) :
    (AnalyticsService.processNextMessage env w).1 = none ∧
    (AnalyticsService.processNextMessage env w).2.commitCalls = w.commitCalls ++ [msg] ∧
    (AnalyticsService.processNextMessage env w).2.offset = w.offset ∧
    (AnalyticsService.processNextMessage env w).2.messagesProcessed =
      w.messagesProcessed + 1 ∧
    (AnalyticsService.processNextMessage env w).2.messagesFailed = w.messagesFailed ∧
    (∀ (done : Nat → Bool) (fuel iterations : Nat) (sleeps : List Duration),
      done iterations = false →
      AnalyticsService.Start env done (fuel + 1) ⟨w, iterations, sleeps⟩ =
        AnalyticsService.Start env done fuel
          ⟨(AnalyticsService.processNextMessage env w).2, iterations + 1, sleeps⟩) := by
  have hframe := HandleMessage_frame env msg.Value
    { w with fetchCalls := w.fetchCalls + 1, ticks := w.ticks + 1 + 1 }
  cases hh : MessageHandler.HandleMessage env msg.Value
    { w with fetchCalls := w.fetchCalls + 1, ticks := w.ticks + 1 + 1 } with
  | mk err w3 =>
    rw [hh] at hframe hhandled
    simp only at hhandled
    subst hhandled
    obtain ⟨hc, ho, -, hp, hf, -⟩ := hframe
    simp only at hc ho hp hf
    have hres := processNextMessage_handled_ok env w msg w3 hfetch hh
    have hce : env.commitErr w3.commitCalls.length = some e := by rw [hc]; exact hcommit
    have h1 : (AnalyticsService.processNextMessage env w).1 = none := by rw [hres]
    refine ⟨h1, ?_, ?_, ?_, ?_, ?_⟩
    · rw [hres]; simp only [Consumer.CommitMessages, hce]; exact congrArg (· ++ [msg]) hc
    · rw [hres]; simp only [Consumer.CommitMessages, hce]; exact ho
    · rw [hres]; simp only [Consumer.CommitMessages, hce]; exact congrArg (· + 1) hp
    · rw [hres]; simp only [Consumer.CommitMessages, hce]; exact hf
    · intro done fuel iterations sleeps hd
      rw [AnalyticsService.Start]
      simp only [hd, Bool.false_eq_true, if_false]
      generalize AnalyticsService.processNextMessage env w = r at h1 ⊢
      obtain ⟨err, w1⟩ := r
      simp only at h1
      subst h1
      rfl

/-- C22 at a concrete run: the message is handled without error and the commit fails. -/
theorem processNextMessage_commit_failure_witness :
    (AnalyticsService.processNextMessage
      { unmarshal := fun _ => .ok { Timestamp := ⟨1⟩, LocationID := "A", VehicleCount := 100,
                                    AverageSpeed := 40, CongestionLevel := "low" }
        fetch := fun _ => .ok ⟨7, "payload"⟩
        storeErr := fun _ => none
        commitErr := fun _ => some (.backend "commit failed")
        clock := fun n => ⟨n⟩ }
      ⟨0, 0, [], 0, [], 7, 0, 0, []⟩).1 = none ∧
    (AnalyticsService.processNextMessage
      { unmarshal := fun _ => .ok { Timestamp := ⟨1⟩, LocationID := "A", VehicleCount := 100,
                                    AverageSpeed := 40, CongestionLevel := "low" }
        fetch := fun _ => .ok ⟨7, "payload"⟩
        storeErr := fun _ => none
        commitErr := fun _ => some (.backend "commit failed")
        clock := fun n => ⟨n⟩ }
      ⟨0, 0, [], 0, [], 7, 0, 0, []⟩).2.commitCalls = [] ++ [⟨7, "payload"⟩] ∧
    (AnalyticsService.processNextMessage
      { unmarshal := fun _ => .ok { Timestamp := ⟨1⟩, LocationID := "A", VehicleCount := 100,
                                    AverageSpeed := 40, CongestionLevel := "low" }
        fetch := fun _ => .ok ⟨7, "payload"⟩
        storeErr := fun _ => none
        commitErr := fun _ => some (.backend "commit failed")
        clock := fun n => ⟨n⟩ }
      ⟨0, 0, [], 0, [], 7, 0, 0, []⟩).2.offset = 7 :=
  have h := processNextMessage_commit_failure
    { unmarshal := fun _ => .ok { Timestamp := ⟨1⟩, LocationID := "A", VehicleCount := 100,
                                  AverageSpeed := 40, CongestionLevel := "low" }
      fetch := fun _ => .ok ⟨7, "payload"⟩
      storeErr := fun _ => none
      commitErr := fun _ => some (.backend "commit failed")
      clock := fun n => ⟨n⟩ }
    ⟨0, 0, [], 0, [], 7, 0, 0, []⟩ ⟨7, "payload"⟩ (.backend "commit failed") rfl
    ((HandleMessage_none_iff _ _ _).mpr
      ⟨{ Timestamp := ⟨1⟩, LocationID := "A", VehicleCount := 100, AverageSpeed := 40,
         CongestionLevel := "low" }, rfl,
       by simp [MessageHandler.validateTrafficData, validLevels, CongestionLow],
       by simp [analyticsProcessor.validateTrafficData, validLevels, CongestionLow,
            Time.IsZero],
       fun _ _ => rfl⟩)
    rfl
  ⟨h.1, h.2.1, h.2.2.1⟩

/-! ### The consumption loop -/

/-- An iteration that observes the cancellation returns nil at once, leaving the world as
it was. -/
theorem Start_cancelled (env : Env) (done : Nat → Bool) (fuel : Nat) (s : LoopState)
    (hdone : done s.iterations = true) :
    AnalyticsService.Start env done (fuel + 1) s =
      (some none, { s with iterations := s.iterations + 1 }) := by
  rw [AnalyticsService.Start]
  simp [hdone]

/-- An iteration that is not cancelled and whose `processNextMessage` returns an error
sleeps one second and goes on with the next iteration. -/
theorem Start_iteration_error (env : Env) (done : Nat → Bool) (fuel : Nat) (s : LoopState)
    (e : Err) (hdone : done s.iterations = false)
    (herr : (AnalyticsService.processNextMessage env s.world).1 = some e) :
    AnalyticsService.Start env done (fuel + 1) s =
      AnalyticsService.Start env done fuel
        { world := timeSleep (AnalyticsService.processNextMessage env s.world).2,
          iterations := s.iterations + 1,
          sleeps := s.sleeps ++ [1 * Second] } := by
  rw [AnalyticsService.Start]
  simp only [hdone, Bool.false_eq_true, if_false]
  generalize AnalyticsService.processNextMessage env s.world = r at herr ⊢
  obtain ⟨err, w1⟩ := r
  simp only at herr
  subst herr
  rfl

/-- An iteration that is not cancelled and whose `processNextMessage` returns no error goes
on with the next iteration without sleeping. -/
theorem Start_iteration_ok (env : Env) (done : Nat → Bool) (fuel : Nat) (s : LoopState)
    (hdone : done s.iterations = false)
    (hok : (AnalyticsService.processNextMessage env s.world).1 = none) :
    AnalyticsService.Start env done (fuel + 1) s =
      AnalyticsService.Start env done fuel
        { world := (AnalyticsService.processNextMessage env s.world).2,
          iterations := s.iterations + 1,
          sleeps := s.sleeps } := by
  rw [AnalyticsService.Start]
  simp only [hdone, Bool.false_eq_true, if_false]
  generalize AnalyticsService.processNextMessage env s.world = r at hok ⊢
  obtain ⟨err, w1⟩ := r
  simp only at hok
  subst hok
  rfl

/-- An iteration that is not cancelled goes on with some next state whose iteration count
is one more. -/
theorem Start_iteration (env : Env) (done : Nat → Bool) (fuel : Nat) (s : LoopState)
    (hdone : done s.iterations = false) :
    ∃ s1 : LoopState, s1.iterations = s.iterations + 1 ∧
      (s1.sleeps = s.sleeps ∨ s1.sleeps = s.sleeps ++ [1 * Second]) ∧
      AnalyticsService.Start env done (fuel + 1) s = AnalyticsService.Start env done fuel s1 := by
  cases hr : (AnalyticsService.processNextMessage env s.world).1 with
  | none =>
    exact ⟨{ world := (AnalyticsService.processNextMessage env s.world).2,
             iterations := s.iterations + 1, sleeps := s.sleeps },
      rfl, Or.inl rfl, Start_iteration_ok env done fuel s hdone hr⟩
  | some e =>
    exact ⟨{ world := timeSleep (AnalyticsService.processNextMessage env s.world).2,
             iterations := s.iterations + 1, sleeps := s.sleeps ++ [1 * Second] },
      rfl, Or.inr rfl, Start_iteration_error env done fuel s e hdone hr⟩

/-- The loop never returns an error: it is still running or it has returned nil. -/
theorem Start_no_error (env : Env) (done : Nat → Bool) (fuel : Nat) (s : LoopState) :
    (AnalyticsService.Start env done fuel s).1 = none ∨
    (AnalyticsService.Start env done fuel s).1 = some none := by
  induction fuel generalizing s with
  | zero => left; rfl
  | succ n ih =>
    by_cases hd : done s.iterations = true
    · right; rw [Start_cancelled env done n s hd]
    · obtain ⟨s1, -, -, h⟩ := Start_iteration env done n s (by simpa using hd)
      rw [h]; exact ih s1

/-- The loop has returned within `fuel` iterations exactly when one of them observed the
cancellation. -/
theorem Start_returns_iff (env : Env) (done : Nat → Bool) (fuel : Nat) (s : LoopState) :
    (AnalyticsService.Start env done fuel s).1 = some none ↔
      ∃ k, k < fuel ∧ done (s.iterations + k) = true := by
  induction fuel generalizing s with
  | zero => simp [AnalyticsService.Start]
  | succ n ih =>
    by_cases hd : done s.iterations = true
    · rw [Start_cancelled env done n s hd]
      simp only [true_iff]
      exact ⟨0, Nat.succ_pos _, by simpa using hd⟩
    · obtain ⟨s1, hi, -, h⟩ := Start_iteration env done n s (by simpa using hd)
      rw [h, ih s1, hi]
      constructor
      · rintro ⟨k, hk, hdk⟩
        refine ⟨k + 1, Nat.succ_lt_succ hk, ?_⟩
        have e1 : s.iterations + (k + 1) = s.iterations + 1 + k := by omega
        rw [e1]; exact hdk
      · rintro ⟨k, hk, hdk⟩
        cases k with
        | zero => exact absurd (by simpa using hdk) hd
        | succ j =>
          refine ⟨j, Nat.lt_of_succ_lt_succ hk, ?_⟩
          have e1 : s.iterations + (j + 1) = s.iterations + 1 + j := by omega
          rw [← e1]; exact hdk

/-- While no iteration observes the cancellation the loop keeps running, whatever errors
the iterations meet. -/
theorem Start_running (env : Env) (done : Nat → Bool) (fuel : Nat) (s : LoopState)
    (hnot : ∀ k, k < fuel → done (s.iterations + k) = false) :
    (AnalyticsService.Start env done fuel s).1 = none ∧
    (AnalyticsService.Start env done fuel s).2.iterations = s.iterations + fuel := by
  induction fuel generalizing s with
  | zero => exact ⟨rfl, rfl⟩
  | succ n ih =>
    have hd : done s.iterations = false := by simpa using hnot 0 (Nat.succ_pos _)
    obtain ⟨s1, hi, -, h⟩ := Start_iteration env done n s hd
    rw [h]
    have := ih s1 (by
      intro k hk
      have e1 : s1.iterations + k = s.iterations + (k + 1) := by omega
      rw [e1]; exact hnot (k + 1) (Nat.succ_lt_succ hk))
    refine ⟨this.1, ?_⟩
    rw [this.2, hi]; omega

/-- Every backoff of the loop is a sleep of exactly one second. -/
theorem Start_sleeps (env : Env) (done : Nat → Bool) (fuel : Nat) (s : LoopState) :
    ∃ n, n ≤ fuel ∧
      (AnalyticsService.Start env done fuel s).2.sleeps =
        s.sleeps ++ List.replicate n (1 * Second) := by
  induction fuel generalizing s with
  | zero => exact ⟨0, le_refl 0, by simp [AnalyticsService.Start]⟩
  | succ n ih =>
    by_cases hd : done s.iterations = true
    · rw [Start_cancelled env done n s hd]
      exact ⟨0, Nat.zero_le _, by simp⟩
    · obtain ⟨s1, -, hs, h⟩ := Start_iteration env done n s (by simpa using hd)
      obtain ⟨m, hm, hsl⟩ := ih s1
      rw [h, hsl]
      rcases hs with hs | hs
      · exact ⟨m, Nat.le_succ_of_le hm, by rw [hs]⟩
      · refine ⟨m + 1, Nat.succ_le_succ hm, ?_⟩
        rw [hs, List.append_assoc]
        rfl

/-- Once the loop has returned, more fuel does not change the outcome. -/
theorem Start_stable (env : Env) (done : Nat → Bool) (fuel : Nat) (s : LoopState)
    (hret : (AnalyticsService.Start env done fuel s).1 ≠ none) :
    AnalyticsService.Start env done (fuel + 1) s = AnalyticsService.Start env done fuel s := by
  induction fuel generalizing s with
  | zero => exact absurd rfl hret
  | succ n ih =>
    by_cases hd : done s.iterations = true
    · rw [Start_cancelled env done (n + 1) s hd, Start_cancelled env done n s hd]
    · obtain ⟨s1, -, -, h⟩ := Start_iteration env done n s (by simpa using hd)
      have hd2 : done s.iterations = false := by simpa using hd
      cases hr : (AnalyticsService.processNextMessage env s.world).1 with
      | none =>
        rw [Start_iteration_ok env done (n + 1) s hd2 hr, Start_iteration_ok env done n s hd2 hr]
        apply ih
        rw [← Start_iteration_ok env done n s hd2 hr]; exact hret
      | some e =>
        rw [Start_iteration_error env done (n + 1) s e hd2 hr,
          Start_iteration_error env done n s e hd2 hr]
        apply ih
        rw [← Start_iteration_error env done n s e hd2 hr]; exact hret

/-- An iteration returns no error exactly when its fetch returns a message and the handling
of that message returns no error. -/
theorem processNextMessage_none_iff (env : Env) (w : World) :
    (AnalyticsService.processNextMessage env w).1 = none ↔
      ∃ msg, env.fetch w.fetchCalls = .ok msg ∧
        (MessageHandler.HandleMessage env msg.Value
          { w with fetchCalls := w.fetchCalls + 1, ticks := w.ticks + 1 + 1 }).1 = none := by
  cases hfetch : env.fetch w.fetchCalls with
  | error e =>
    rw [processNextMessage_fetch_error env w e hfetch]
    simp
  | ok msg =>
    cases hh : MessageHandler.HandleMessage env msg.Value
      { w with fetchCalls := w.fetchCalls + 1, ticks := w.ticks + 1 + 1 } with
    | mk err w3 =>
      cases err with
      | some e =>
        rw [processNextMessage_handled_error env w msg e w3 hfetch hh]
        simp [hh]
      | none =>
        rw [processNextMessage_handled_ok env w msg w3 hfetch hh]
        simp [hh]

/-- C23: the consumption loop never returns because of a per-message error. Run for any
number of iterations, `Start` never returns an error; it has returned, with nil, exactly when
one of the iterations run observed the cancellation at its start, and then it processes
nothing in that iteration; while no iteration observes the cancellation it keeps running,
whatever errors occur. An iteration whose `processNextMessage` returns an error (which is the
case for a fetch error and for a parse, validation or persist error of the handling) calls
`time.Sleep` with one second and goes on with the next iteration; every sleep of the loop is
one second; and once the loop has returned, running it longer changes nothing. -/
theorem Start_returns_only_on_cancellation (env : Env) (done : Nat → Bool) (fuel : Nat)
    (s : LoopState) :
    (∀ e, (AnalyticsService.Start env done fuel s).1 ≠ some (some e)) ∧
    ((AnalyticsService.Start env done fuel s).1 = some none ↔
      ∃ k, k < fuel ∧ done (s.iterations + k) = true) ∧
    ((∀ k, k < fuel → done (s.iterations + k) = false) →
      (AnalyticsService.Start env done fuel s).1 = none ∧
      (AnalyticsService.Start env done fuel s).2.iterations = s.iterations + fuel) ∧
    (done s.iterations = true →
      AnalyticsService.Start env done (fuel + 1) s =
        (some none, { s with iterations := s.iterations + 1 })) ∧
    (∀ e, done s.iterations = false →
      (AnalyticsService.processNextMessage env s.world).1 = some e →
      AnalyticsService.Start env done (fuel + 1) s =
        AnalyticsService.Start env done fuel
          { world := timeSleep (AnalyticsService.processNextMessage env s.world).2,
            iterations := s.iterations + 1,
            sleeps := s.sleeps ++ [1 * Second] }) ∧
    ((∀ e, env.fetch s.world.fetchCalls = .error e →
        (AnalyticsService.processNextMessage env s.world).1 = some e) ∧
      (∀ msg, env.fetch s.world.fetchCalls = .ok msg →
        (MessageHandler.HandleMessage env msg.Value
          { s.world with fetchCalls := s.world.fetchCalls + 1,
                         ticks := s.world.ticks + 1 + 1 }).1 ≠ none →
        (AnalyticsService.processNextMessage env s.world).1 ≠ none)) ∧
    (∃ n, n ≤ fuel ∧
      (AnalyticsService.Start env done fuel s).2.sleeps =
        s.sleeps ++ List.replicate n (1 * Second)) ∧
    ((AnalyticsService.Start env done fuel s).1 ≠ none →
      AnalyticsService.Start env done (fuel + 1) s = AnalyticsService.Start env done fuel s) := by
  refine ⟨?_, Start_returns_iff env done fuel s, Start_running env done fuel s,
    Start_cancelled env done fuel s, fun e => Start_iteration_error env done fuel s e,
    ⟨?_, ?_⟩, Start_sleeps env done fuel s, Start_stable env done fuel s⟩
  · intro e he
    rcases Start_no_error env done fuel s with h | h <;> rw [h] at he <;> simp at he
  · intro e hfetch
    rw [processNextMessage_fetch_error env s.world e hfetch]
  · intro msg hfetch hne hnone
    obtain ⟨msg2, hf2, hh⟩ := (processNextMessage_none_iff env s.world).mp hnone
    rw [hfetch] at hf2
    cases hf2
    exact hne hh

/-- C23 at a concrete run: every fetch fails and the cancellation is observed by the fourth
iteration; the loop returns nil. -/
theorem Start_returns_only_on_cancellation_witness :
    (AnalyticsService.Start
      { unmarshal := fun _ => .error (.backend "unused")
        fetch := fun _ => .error (.backend "broker unavailable")
        storeErr := fun _ => none
        commitErr := fun _ => none
        clock := fun n => ⟨n⟩ }
      (fun n => n == 3) 10 ⟨⟨0, 0, [], 0, [], 0, 0, 0, []⟩, 0, []⟩).1 = some none :=
  (Start_returns_only_on_cancellation
      { unmarshal := fun _ => .error (.backend "unused")
        fetch := fun _ => .error (.backend "broker unavailable")
        storeErr := fun _ => none
        commitErr := fun _ => none
        clock := fun n => ⟨n⟩ }
      (fun n => n == 3) 10 ⟨⟨0, 0, [], 0, [], 0, 0, 0, []⟩, 0, []⟩).2.1.mpr
    ⟨3, by decide, rfl⟩

/-- The run of the C23 example, evaluated: three failed fetches, each followed by a sleep of
one second, then the return with nil at the fourth iteration. -/
theorem Start_fetch_errors_run :
    AnalyticsService.Start
      { unmarshal := fun _ => .error (.backend "unused")
        fetch := fun _ => .error (.backend "broker unavailable")
        storeErr := fun _ => none
        commitErr := fun _ => none
        clock := fun n => ⟨n⟩ }
      (fun n => n == 3) 10 ⟨⟨0, 0, [], 0, [], 0, 0, 0, []⟩, 0, []⟩ =
      (some none,
       ⟨⟨6, 3, [], 0, [], 0, 0, 0, []⟩, 4, [1000000000, 1000000000, 1000000000]⟩) := by
  decide

/-! ### The recorded latency -/

/-- A successful handling takes twelve events: its own clock reading, the five clock
readings of the derivation, the five inserts and the closing clock reading. -/
theorem HandleMessage_ticks_ok (env : Env) (payload : Bytes) (w : World)
    (hok : (MessageHandler.HandleMessage env payload w).1 = none) :
    (MessageHandler.HandleMessage env payload w).2.ticks = w.ticks + 12 := by
  obtain ⟨d, hdec, hh, hv, hall⟩ := (HandleMessage_none_iff env payload w).mp hok
  have hlen := performAnalysis_length (fun i => env.clock (w.ticks + 1 + i)) d
  simp only [MessageHandler.HandleMessage, MessageHandler.parseTrafficData, timeNow,
    timeSince, hdec, hh, analyticsProcessor.ProcessTrafficData, hv]
  rw [storeResults_all_ok env _ { w with ticks := w.ticks + 1 + 5 }
    (by rw [hlen]; exact hall)]
  simp only [hlen]

/-- C24, counterexample: with a clock that advances one second per event, the fetch starts
at second 0 and the handling of the fetched message ends at second 14 (event 14), so the
fetch and the processing take 14 seconds together; the histogram receives 13 seconds, the
time since the clock reading taken after the fetch had returned. -/
theorem recorded_latency_counterexample :
    (MessageHandler.HandleMessage
      { unmarshal := fun _ => .ok { Timestamp := ⟨1⟩, LocationID := "A", VehicleCount := 100,
                                    AverageSpeed := 40, CongestionLevel := "low" }
        fetch := fun _ => .ok ⟨7, "payload"⟩
        storeErr := fun _ => none
        commitErr := fun _ => none
        clock := fun n => ⟨n * 1000000000⟩ }
      "payload" ⟨2, 1, [], 0, [], 7, 0, 0, []⟩).1 = none ∧
    (MessageHandler.HandleMessage
      { unmarshal := fun _ => .ok { Timestamp := ⟨1⟩, LocationID := "A", VehicleCount := 100,
                                    AverageSpeed := 40, CongestionLevel := "low" }
        fetch := fun _ => .ok ⟨7, "payload"⟩
        storeErr := fun _ => none
        commitErr := fun _ => none
        clock := fun n => ⟨n * 1000000000⟩ }
      "payload" ⟨2, 1, [], 0, [], 7, 0, 0, []⟩).2.ticks = 14 ∧
    (AnalyticsService.processNextMessage
      { unmarshal := fun _ => .ok { Timestamp := ⟨1⟩, LocationID := "A", VehicleCount := 100,
                                    AverageSpeed := 40, CongestionLevel := "low" }
        fetch := fun _ => .ok ⟨7, "payload"⟩
        storeErr := fun _ => none
        commitErr := fun _ => none
        clock := fun n => ⟨n * 1000000000⟩ }
      ⟨0, 0, [], 0, [], 7, 0, 0, []⟩).2.processingTime = [13 * Second] ∧
    ((fun n : Nat => (⟨n * 1000000000⟩ : Time)) 14).Sub
      ((fun n : Nat => (⟨n * 1000000000⟩ : Time)) 0) = 14 * Second := by
  have hok : (MessageHandler.HandleMessage
      { unmarshal := fun _ => .ok { Timestamp := ⟨1⟩, LocationID := "A", VehicleCount := 100,
                                    AverageSpeed := 40, CongestionLevel := "low" }
        fetch := fun _ => .ok ⟨7, "payload"⟩
        storeErr := fun _ => none
        commitErr := fun _ => none
        clock := fun n => ⟨n * 1000000000⟩ }
      "payload" ⟨2, 1, [], 0, [], 7, 0, 0, []⟩).1 = none :=
    (HandleMessage_none_iff _ _ _).mpr
      ⟨{ Timestamp := ⟨1⟩, LocationID := "A", VehicleCount := 100, AverageSpeed := 40,
         CongestionLevel := "low" }, rfl,
       by simp [MessageHandler.validateTrafficData, validLevels, CongestionLow],
       by simp [analyticsProcessor.validateTrafficData, validLevels, CongestionLow,
            Time.IsZero],
       fun _ _ => rfl⟩
  have hticks := HandleMessage_ticks_ok _ _ _ hok
  refine ⟨hok, hticks, ?_, by simp [Time.Sub, Second]⟩
  cases hh : MessageHandler.HandleMessage
      { unmarshal := fun _ => .ok { Timestamp := ⟨1⟩, LocationID := "A", VehicleCount := 100,
                                    AverageSpeed := 40, CongestionLevel := "low" }
        fetch := fun _ => .ok ⟨7, "payload"⟩
        storeErr := fun _ => none
        commitErr := fun _ => none
        clock := fun n => ⟨n * 1000000000⟩ }
      "payload" ⟨2, 1, [], 0, [], 7, 0, 0, []⟩ with
  | mk err w3 =>
    have hframe := HandleMessage_frame
      { unmarshal := fun _ => .ok { Timestamp := ⟨1⟩, LocationID := "A", VehicleCount := 100,
                                    AverageSpeed := 40, CongestionLevel := "low" }
        fetch := fun _ => .ok ⟨7, "payload"⟩
        storeErr := fun _ => none
        commitErr := fun _ => none
        clock := fun n => ⟨n * 1000000000⟩ }
      "payload" ⟨2, 1, [], 0, [], 7, 0, 0, []⟩
    rw [hh] at hok hticks hframe
    simp only at hok hticks hframe
    subst hok
    rw [processNextMessage_handled_ok _ ⟨0, 0, [], 0, [], 7, 0, 0, []⟩ ⟨7, "payload"⟩ w3 rfl hh]
    simp [Consumer.CommitMessages, hframe.2.2.2.2.2, hticks, Time.Sub, Second]

/-- C24, amended: on successful processing of a fetched message the histogram receives one
observation, the processing latency: the time elapsed between the clock reading taken right
after the fetch returned (event `ticks + 1`, the fetch being event `ticks`) and the clock
reading taken when the handling of the message has ended (event `ticks + 14`); the time
spent in the fetch is not part of it. When the handling fails nothing is recorded. -/
theorem processNextMessage_recorded_latency (env : Env) (w : World) (msg : Message)
    (hfetch : env.fetch w.fetchCalls = .ok msg) :
    ((MessageHandler.HandleMessage env msg.Value
        { w with fetchCalls := w.fetchCalls + 1, ticks := w.ticks + 1 + 1 }).1 = none →
      (AnalyticsService.processNextMessage env w).2.processingTime =
        w.processingTime ++ [(env.clock (w.ticks + 14)).Sub (env.clock (w.ticks + 1))]) ∧
    ((MessageHandler.HandleMessage env msg.Value
        { w with fetchCalls := w.fetchCalls + 1, ticks := w.ticks + 1 + 1 }).1 ≠ none →
      (AnalyticsService.processNextMessage env w).2.processingTime = w.processingTime) := by
  have hframe := HandleMessage_frame env msg.Value
    { w with fetchCalls := w.fetchCalls + 1, ticks := w.ticks + 1 + 1 }
  constructor
  · intro hok
    have hticks := HandleMessage_ticks_ok env msg.Value _ hok
    cases hh : MessageHandler.HandleMessage env msg.Value
      { w with fetchCalls := w.fetchCalls + 1, ticks := w.ticks + 1 + 1 } with
    | mk err w3 =>
      rw [hh] at hok hticks hframe
      simp only at hok hticks hframe
      subst hok
      have e1 : w3.ticks = w.ticks + 14 := by rw [hticks]
      rw [processNextMessage_handled_ok env w msg w3 hfetch hh]
      simp only [Consumer.CommitMessages]
      cases env.commitErr w3.commitCalls.length <;> simp [hframe.2.2.2.2.2, e1]
  · intro hne
    cases hh : MessageHandler.HandleMessage env msg.Value
      { w with fetchCalls := w.fetchCalls + 1, ticks := w.ticks + 1 + 1 } with
    | mk err w3 =>
      rw [hh] at hne hframe
      simp only at hne hframe
      cases err with
      | none => exact absurd rfl hne
      | some e =>
        rw [processNextMessage_handled_error env w msg e w3 hfetch hh]
        exact hframe.2.2.2.2.2

/-- C24, amended, at the run of the counterexample: 13 seconds are recorded. -/
theorem processNextMessage_recorded_latency_witness :
    (AnalyticsService.processNextMessage
      { unmarshal := fun _ => .ok { Timestamp := ⟨1⟩, LocationID := "A", VehicleCount := 100,
                                    AverageSpeed := 40, CongestionLevel := "low" }
        fetch := fun _ => .ok ⟨7, "payload"⟩
        storeErr := fun _ => none
        commitErr := fun _ => none
        clock := fun n => ⟨n * 1000000000⟩ }
      ⟨0, 0, [], 0, [], 7, 0, 0, []⟩).2.processingTime =
      [] ++ [(Time.mk (((0 + 14 : Nat) : Int) * 1000000000)).Sub
              (Time.mk (((0 + 1 : Nat) : Int) * 1000000000))] :=
  (processNextMessage_recorded_latency
      { unmarshal := fun _ => .ok { Timestamp := ⟨1⟩, LocationID := "A", VehicleCount := 100,
                                    AverageSpeed := 40, CongestionLevel := "low" }
        fetch := fun _ => .ok ⟨7, "payload"⟩
        storeErr := fun _ => none
        commitErr := fun _ => none
        clock := fun n => ⟨n * 1000000000⟩ }
      ⟨0, 0, [], 0, [], 7, 0, 0, []⟩ ⟨7, "payload"⟩ rfl).1
    ((HandleMessage_none_iff _ _ _).mpr
      ⟨{ Timestamp := ⟨1⟩, LocationID := "A", VehicleCount := 100, AverageSpeed := 40,
         CongestionLevel := "low" }, rfl,
       by simp [MessageHandler.validateTrafficData, validLevels, CongestionLow],
       by simp [analyticsProcessor.validateTrafficData, validLevels, CongestionLow,
            Time.IsZero],
       fun _ _ => rfl⟩)

/-! ### Determinism of the derivation -/

/-- C25: the derivation is deterministic up to the analysis timestamp. For any two readings
that agree on timestamp, locationId, vehicleCount and averageSpeed, whatever their other
fields and whatever the clock readings, the two lists returned by `performAnalysis` have the
same length and become equal once the analysis timestamp of every record is overwritten
with one fixed value: the records are pairwise equal in every other field. -/
theorem performAnalysis_deterministic (now1 now2 : Nat → Time) (d1 d2 : TrafficData)
    (htime : d1.Timestamp = d2.Timestamp) (hloc : d1.LocationID = d2.LocationID)
    (hcount : d1.VehicleCount = d2.VehicleCount)
    (hspeed : d1.AverageSpeed = d2.AverageSpeed) :
    (analyticsProcessor.performAnalysis now1 d1).length =
      (analyticsProcessor.performAnalysis now2 d2).length ∧
    (analyticsProcessor.performAnalysis now1 d1).map
        (fun r => { r with AnalysisTimestamp := ⟨0⟩ }) =
      (analyticsProcessor.performAnalysis now2 d2).map
        (fun r => { r with AnalysisTimestamp := ⟨0⟩ }) := by
  constructor
  · rw [performAnalysis_length, performAnalysis_length]
  · rw [performAnalysis_eq, performAnalysis_eq]
    simp only [List.map_cons, List.map_nil, analyticsProcessor.calculateCongestionIndex,
      analyticsProcessor.calculateTrafficDensity, analyticsProcessor.calculateFlowRate,
      analyticsProcessor.calculateTravelTime, analyticsProcessor.calculateDelayIndex,
      htime, hloc, hcount, hspeed]
    by_cases h0 : d2.VehicleCount = 0 <;> simp [h0]

/-- C25 at two readings that differ in congestionLevel, maxSpeed, occupancy and dataSource,
derived at different clock readings. -/
theorem performAnalysis_deterministic_witness :
    (analyticsProcessor.performAnalysis (fun n => ⟨n⟩)
      { Timestamp := ⟨1⟩, LocationID := "A", VehicleCount := 100, AverageSpeed := 40,
        CongestionLevel := "low" }).map (fun r => { r with AnalysisTimestamp := ⟨0⟩ }) =
    (analyticsProcessor.performAnalysis (fun n => ⟨n + 1000⟩)
      { Timestamp := ⟨1⟩, LocationID := "A", VehicleCount := 100, AverageSpeed := 40,
        CongestionLevel := "severe", MaxSpeed := some 90, Occupancy := some 55,
        DataSource := "camera" }).map (fun r => { r with AnalysisTimestamp := ⟨0⟩ }) :=
  (performAnalysis_deterministic (fun n => ⟨n⟩) (fun n => ⟨n + 1000⟩)
    { Timestamp := ⟨1⟩, LocationID := "A", VehicleCount := 100, AverageSpeed := 40,
      CongestionLevel := "low" }
    { Timestamp := ⟨1⟩, LocationID := "A", VehicleCount := 100, AverageSpeed := 40,
      CongestionLevel := "severe", MaxSpeed := some 90, Occupancy := some 55,
      DataSource := "camera" } rfl rfl rfl rfl).2

/-! ### Travel time -/

/-- C26, failing input: the reading with averageSpeed = 1/2 passes both validators and its
travel_time record has value 120, which is more than 60, although the source comments the
value 60 as the maximum ("1 hora como valor máximo"): the value of the branch for a positive
speed is not capped. -/
theorem travelTime_above_sixty :
    MessageHandler.validateTrafficData
      { Timestamp := ⟨1⟩, LocationID := "A", VehicleCount := 10, AverageSpeed := 1 / 2,
        CongestionLevel := "low" } = none ∧
    analyticsProcessor.validateTrafficData
      (some { Timestamp := ⟨1⟩, LocationID := "A", VehicleCount := 10, AverageSpeed := 1 / 2,
              CongestionLevel := "low" }) = none ∧
    (analyticsProcessor.calculateTravelTime ⟨0⟩
      { Timestamp := ⟨1⟩, LocationID := "A", VehicleCount := 10, AverageSpeed := 1 / 2,
        CongestionLevel := "low" }).Value = 120 ∧
    ¬ (analyticsProcessor.calculateTravelTime ⟨0⟩
      { Timestamp := ⟨1⟩, LocationID := "A", VehicleCount := 10, AverageSpeed := 1 / 2,
        CongestionLevel := "low" }).Value ≤ 60 := by
  have hv : (analyticsProcessor.calculateTravelTime ⟨0⟩
      { Timestamp := ⟨1⟩, LocationID := "A", VehicleCount := 10, AverageSpeed := 1 / 2,
        CongestionLevel := "low" }).Value = 120 := by
    rw [calculateTravelTime_Value]
    norm_num
  refine ⟨?_, ?_, hv, ?_⟩
  · have h : ¬ ((1 : ℚ) / 2 < 0) := by norm_num
    simp [MessageHandler.validateTrafficData, validLevels, CongestionLow, h]
  · have h : ¬ ((1 : ℚ) / 2 < 0) := by norm_num
    simp [analyticsProcessor.validateTrafficData, validLevels, CongestionLow, Time.IsZero, h]
  · rw [hv]; norm_num

/-- The travel time is at most 60 for a speed that is zero, negative or at least 1. -/
theorem travelTime_le_sixty (now : Time) (data : TrafficData)
    (hspeed : data.AverageSpeed ≤ 0 ∨ 1 ≤ data.AverageSpeed) :
    (analyticsProcessor.calculateTravelTime now data).Value ≤ 60 := by
  rw [calculateTravelTime_Value]
  rcases hspeed with h | h
  · rw [if_neg (not_lt.mpr h)]
  · have hpos : data.AverageSpeed > 0 := by linarith
    rw [if_pos hpos]
    have h1 : 1 / data.AverageSpeed ≤ 1 := by
      rw [div_le_iff₀ hpos]
      linarith
    linarith

/-! ### The two validators -/

/-- C27: for every non-nil reading whose timestamp is not zero, the two validators of the
consumption path return the same result: both accept, or both reject with the same error
(the same message applied to the same value). -/
theorem validators_agree (data : TrafficData) (htime : data.Timestamp.IsZero = false) :
    analyticsProcessor.validateTrafficData (some data) =
      MessageHandler.validateTrafficData data := by
  simp only [analyticsProcessor.validateTrafficData, MessageHandler.validateTrafficData,
    htime, Bool.false_eq_true, if_false]

/-- C27 at a reading that both validators reject for its vehicleCount. -/
theorem validators_agree_witness :
    analyticsProcessor.validateTrafficData
      (some { Timestamp := ⟨1⟩, LocationID := "A", VehicleCount := -3, AverageSpeed := 40,
              CongestionLevel := "low" }) =
    MessageHandler.validateTrafficData
      { Timestamp := ⟨1⟩, LocationID := "A", VehicleCount := -3, AverageSpeed := 40,
        CongestionLevel := "low" } :=
  validators_agree
    { Timestamp := ⟨1⟩, LocationID := "A", VehicleCount := -3, AverageSpeed := 40,
      CongestionLevel := "low" } rfl

/-! ### Congestion index and speed -/

/-- The congestion index of a reading whose speed is not positive is at most 1/2. -/
theorem congestionIndex_le_half (now : Time) (data : TrafficData)
    (hspeed : ¬ data.AverageSpeed > 0) :
    (analyticsProcessor.calculateCongestionIndex now data).Value ≤ 1 / 2 := by
  by_cases h0 : data.VehicleCount = 0
  · have hv : (analyticsProcessor.calculateCongestionIndex now data).Value = 0 := by
      simp [analyticsProcessor.calculateCongestionIndex, h0]
    rw [hv]; norm_num
  · rw [calculateCongestionIndex_Value_nonzero _ _ h0, if_neg hspeed]
    have h1 : min 1 ((data.VehicleCount : ℚ) / 200) ≤ 1 := min_le_left _ _
    exact le_trans (min_le_right _ _) (by linarith)

/-- The trend of a congestion-index record whose value is at most 0.7 is not
"increasing". -/
theorem congestionIndex_trend_not_increasing (now : Time) (data : TrafficData)
    (hvalue : (analyticsProcessor.calculateCongestionIndex now data).Value ≤ 7 / 10) :
    (analyticsProcessor.calculateCongestionIndex now data).Trend ≠ "increasing" := by
  by_cases h0 : data.VehicleCount = 0
  · have ht : (analyticsProcessor.calculateCongestionIndex now data).Trend = "" := by
      simp [analyticsProcessor.calculateCongestionIndex, h0]
    rw [ht]; decide
  · rw [congestionIndex_trend_nonzero now data h0, if_neg (not_lt.mpr hvalue)]
    split <;> decide

/-- The congestion index of a reading with vehicleCount >= 200 and averageSpeed = 1 is
159/160, and its trend is "increasing". -/
theorem congestionIndex_slow_saturated (now : Time) (data : TrafficData)
    (hcount : 200 ≤ data.VehicleCount) (hspeed : data.AverageSpeed = 1) :
    (analyticsProcessor.calculateCongestionIndex now data).Value = 159 / 160 ∧
    (analyticsProcessor.calculateCongestionIndex now data).Trend = "increasing" := by
  have hne : data.VehicleCount ≠ 0 := by omega
  have hq : (200 : ℚ) ≤ (data.VehicleCount : ℚ) := by exact_mod_cast hcount
  have hge : (1 : ℚ) ≤ (data.VehicleCount : ℚ) / 200 := by
    rw [le_div_iff₀ (by norm_num : (0 : ℚ) < 200)]
    linarith
  have hv : (analyticsProcessor.calculateCongestionIndex now data).Value = 159 / 160 := by
    rw [calculateCongestionIndex_Value_nonzero _ _ hne, hspeed, min_eq_left hge]
    norm_num
  refine ⟨hv, ?_⟩
  rw [congestionIndex_trend_nonzero now data hne, hv]
  norm_num

/-- C28: for every reading with averageSpeed = 0, valid or not, the congestion_index value
is at most 1/2 and its trend is not "increasing", however large vehicleCount is; whereas for
every vehicleCount >= 200 the reading with the same vehicleCount and averageSpeed = 1 has a
value above 0.7 (it is 159/160) and the trend "increasing"; the two valid readings with
vehicleCount = 1000 and speeds 0 and 1 are such a pair. -/
theorem stopped_traffic_never_increasing (now : Time) :
    (∀ data : TrafficData, data.AverageSpeed = 0 →
      (analyticsProcessor.calculateCongestionIndex now data).Value ≤ 1 / 2 ∧
      (analyticsProcessor.calculateCongestionIndex now data).Trend ≠ "increasing") ∧
    (∀ data : TrafficData, 200 ≤ data.VehicleCount → data.AverageSpeed = 1 →
      (analyticsProcessor.calculateCongestionIndex now data).Value > 7 / 10 ∧
      (analyticsProcessor.calculateCongestionIndex now data).Trend = "increasing") ∧
    (∃ stopped slow : TrafficData,
      MessageHandler.validateTrafficData stopped = none ∧
      analyticsProcessor.validateTrafficData (some stopped) = none ∧
      MessageHandler.validateTrafficData slow = none ∧
      analyticsProcessor.validateTrafficData (some slow) = none ∧
      stopped.AverageSpeed = 0 ∧ 0 < slow.AverageSpeed ∧
      slow.VehicleCount = stopped.VehicleCount ∧
      (analyticsProcessor.calculateCongestionIndex now stopped).Value ≤ 1 / 2 ∧
      (analyticsProcessor.calculateCongestionIndex now stopped).Trend ≠ "increasing" ∧
      (analyticsProcessor.calculateCongestionIndex now slow).Value > 7 / 10 ∧
      (analyticsProcessor.calculateCongestionIndex now slow).Trend = "increasing") := by
  have part1 : ∀ data : TrafficData, data.AverageSpeed = 0 →
      (analyticsProcessor.calculateCongestionIndex now data).Value ≤ 1 / 2 ∧
      (analyticsProcessor.calculateCongestionIndex now data).Trend ≠ "increasing" := by
    intro data hs
    have hle := congestionIndex_le_half now data (by rw [hs]; norm_num)
    exact ⟨hle, congestionIndex_trend_not_increasing now data (by linarith)⟩
  have part2 : ∀ data : TrafficData, 200 ≤ data.VehicleCount → data.AverageSpeed = 1 →
      (analyticsProcessor.calculateCongestionIndex now data).Value > 7 / 10 ∧
      (analyticsProcessor.calculateCongestionIndex now data).Trend = "increasing" := by
    intro data hc hs
    obtain ⟨hv, ht⟩ := congestionIndex_slow_saturated now data hc hs
    exact ⟨by rw [hv]; norm_num, ht⟩
  refine ⟨part1, part2,
    { Timestamp := ⟨1⟩, LocationID := "A", VehicleCount := 1000, AverageSpeed := 0,
      CongestionLevel := "" },
    { Timestamp := ⟨1⟩, LocationID := "A", VehicleCount := 1000, AverageSpeed := 1,
      CongestionLevel := "" },
    by decide, by decide, by decide, by decide, rfl, by norm_num, rfl, ?_, ?_, ?_, ?_⟩
  · exact (part1 _ rfl).1
  · exact (part1 _ rfl).2
  · exact (part2 _ (by decide) rfl).1
  · exact (part2 _ (by decide) rfl).2

/-- C29: for every reading with vehicleCount > 0 and any averageSpeed, the congestion_index
value equals `(min(1, vehicleCount/200) + d) / 2`, where `d` is the delay_index value of the
same reading (exact arithmetic); this holds for the two records of those metric types in the
list returned by `performAnalysis`. -/
theorem congestionIndex_from_delayIndex (now : Nat → Time) (data : TrafficData)
    (hcount : 0 < data.VehicleCount) :
    (analyticsProcessor.calculateCongestionIndex (now 0) data).Value =
      (min 1 ((data.VehicleCount : ℚ) / 200) +
        (analyticsProcessor.calculateDelayIndex (now 4) data).Value) / 2 ∧
    ∀ c ∈ analyticsProcessor.performAnalysis now data,
      ∀ d ∈ analyticsProcessor.performAnalysis now data,
        c.MetricType = "congestion_index" → d.MetricType = "delay_index" →
        c.Value = (min 1 ((data.VehicleCount : ℚ) / 200) + d.Value) / 2 := by
  have hne : data.VehicleCount ≠ 0 := by omega
  have hmain : (analyticsProcessor.calculateCongestionIndex (now 0) data).Value =
      (min 1 ((data.VehicleCount : ℚ) / 200) +
        (analyticsProcessor.calculateDelayIndex (now 4) data).Value) / 2 := by
    rw [calculateCongestionIndex_Value_nonzero _ _ hne, calculateDelayIndex_Value]
    have hn : min 1 ((data.VehicleCount : ℚ) / 200) ≤ 1 := min_le_left _ _
    by_cases hs : data.AverageSpeed > 0
    · rw [if_pos hs, if_pos hs]
      have hx : (80 - data.AverageSpeed) / 80 ≤ 1 := by
        rw [div_le_iff₀ (by norm_num : (0 : ℚ) < 80)]
        linarith
      have hm : max 0 ((80 - data.AverageSpeed) / 80) ≤ 1 := max_le (by norm_num) hx
      rw [min_eq_right hm, min_eq_right (by linarith)]
    · rw [if_neg hs, if_neg hs, min_eq_right (by linarith)]
  refine ⟨hmain, ?_⟩
  intro c hc d hd hct hdt
  rw [(performAnalysis_record now data c hc).1 hct,
    (performAnalysis_record now data d hd).2.2.2.2 hdt]
  exact hmain

/-- C29 at vehicleCount = 100 and averageSpeed = 40. -/
theorem congestionIndex_from_delayIndex_witness :
    (analyticsProcessor.calculateCongestionIndex ⟨0⟩
      { Timestamp := ⟨1⟩, LocationID := "A", VehicleCount := 100, AverageSpeed := 40,
        CongestionLevel := "low" }).Value =
      (min 1 (((100 : Int) : ℚ) / 200) +
        (analyticsProcessor.calculateDelayIndex ⟨0⟩
          { Timestamp := ⟨1⟩, LocationID := "A", VehicleCount := 100, AverageSpeed := 40,
            CongestionLevel := "low" }).Value) / 2 :=
  (congestionIndex_from_delayIndex (fun _ => ⟨0⟩)
    { Timestamp := ⟨1⟩, LocationID := "A", VehicleCount := 100, AverageSpeed := 40,
      CongestionLevel := "low" } (by decide)).1

/-! ### Configuration -/

/-- C30, counterexample: with PROCESSING_TIMEOUT set to "30" the variable is neither unset
nor empty, yet `getIntEnv` returns 30, the default; and with BATCH_SIZE set to
"9223372036854775808", which `strconv.Atoi` refuses with a range error while returning the
largest int, `getIntEnv` returns 9223372036854775807, which is neither 0 nor the default. -/
theorem getIntEnv_counterexample :
    (fun k : String =>
        if k = "PROCESSING_TIMEOUT" then "30"
        else if k = "BATCH_SIZE" then "9223372036854775808" else "") "PROCESSING_TIMEOUT" ≠ "" ∧
    getIntEnv
      (fun k =>
        if k = "PROCESSING_TIMEOUT" then "30"
        else if k = "BATCH_SIZE" then "9223372036854775808" else "")
      (fun v =>
        if v = "30" then (30, none)
        else if v = "9223372036854775808" then
          (9223372036854775807, some (.backend "value out of range"))
        else (0, some (.backend "invalid syntax")))
      "PROCESSING_TIMEOUT" 30 = 30 ∧
    ((fun v : String =>
        if v = "30" then ((30 : Int), (none : Option Err))
        else if v = "9223372036854775808" then
          (9223372036854775807, some (.backend "value out of range"))
        else (0, some (.backend "invalid syntax"))) "9223372036854775808").2 ≠ none ∧
    getIntEnv
      (fun k =>
        if k = "PROCESSING_TIMEOUT" then "30"
        else if k = "BATCH_SIZE" then "9223372036854775808" else "")
      (fun v =>
        if v = "30" then (30, none)
        else if v = "9223372036854775808" then
          (9223372036854775807, some (.backend "value out of range"))
        else (0, some (.backend "invalid syntax")))
      "BATCH_SIZE" 1 = 9223372036854775807 ∧
    (Load
      (fun k =>
        if k = "PROCESSING_TIMEOUT" then "30"
        else if k = "BATCH_SIZE" then "9223372036854775808" else "")
      (fun v =>
        if v = "30" then (30, none)
        else if v = "9223372036854775808" then
          (9223372036854775807, some (.backend "value out of range"))
        else (0, some (.backend "invalid syntax")))).BatchSize ≠ 0 := by
  refine ⟨by decide, by decide, by decide, by decide, by decide⟩

/-- C30, amended: `getIntEnv` uses the default exactly when the variable is unset or empty.
Then it returns the default; for a non-empty value it returns the integer that
`strconv.Atoi` hands back, whether or not `Atoi` reports an error, and this result does not
depend on the default: the parsed integer when the value parses, and 0 when `Atoi` fails
with the integer 0 (a value that is not a numeral), never the default. `Load` reads
PROCESSING_TIMEOUT with default 30 and BATCH_SIZE with default 1. -/
theorem getIntEnv_result (getenv : String → String) (atoi : String → Int × Option Err)
    (key : String) (defaultValue : Int) :
    (getenv key = "" → getIntEnv getenv atoi key defaultValue = defaultValue) ∧
    (getenv key ≠ "" →
      getIntEnv getenv atoi key defaultValue = (atoi (getenv key)).1) ∧
    ((∀ d, getIntEnv getenv atoi key d = d) ↔ getenv key = "") ∧
    (getenv key ≠ "" → (atoi (getenv key)).2 ≠ none → (atoi (getenv key)).1 = 0 →
      getIntEnv getenv atoi key defaultValue = 0) ∧
    (Load getenv atoi).ProcessingTimeout = getIntEnv getenv atoi "PROCESSING_TIMEOUT" 30 ∧
    (Load getenv atoi).BatchSize = getIntEnv getenv atoi "BATCH_SIZE" 1 := by
  have hempty : getenv key = "" → ∀ d, getIntEnv getenv atoi key d = d := by
    intro h d
    simp [getIntEnv, h]
  have hset : getenv key ≠ "" → ∀ d, getIntEnv getenv atoi key d = (atoi (getenv key)).1 := by
    intro h d
    simp [getIntEnv, h]
  refine ⟨fun h => hempty h _, fun h => hset h _, ⟨?_, fun h => hempty h⟩, ?_, rfl, rfl⟩
  · intro hall
    by_contra hne
    have h1 := hall ((atoi (getenv key)).1 + 1)
    rw [hset hne] at h1
    omega
  · intro hne _ hzero
    rw [hset hne, hzero]

end TrafficAnalytics
